import Mathlib

/-
Shallow embedding of the olmocr repository's evaluation, viewer and
dataset-preparation code, used to check the natural-language specification
against the source.

Python strings are modelled as `List Char`, JSON values as the inductive
`Json`, Python `int` as `Int`, and code that can raise an exception as
`Option`-valued functions (`none` = an uncaught exception propagates).
-/

set_option autoImplicit false
set_option maxRecDepth 2000

namespace OlmOCR


/-- Python strings are modelled as lists of characters. -/
abbrev Str := List Char

/-! JSON values (the Python `json` data model) -/

/-- A JSON value as produced by Python's `json.loads`: `None`, `bool`,
`int` numbers (the fractional case is never relevant to the claims),
strings, lists and string-keyed dicts (insertion ordered). -/
inductive Json where
  | null
  | bool (b : Bool)
  | num (n : Int)
  | str (s : Str)
  | arr (elems : List Json)
  | obj (fields : List (Str × Json))

/-- Python `d[k]` / `k in d` on a dict: the value at the first matching key,
`none` when the key is missing or the value is not a dict (in which case the
Python code paths modelled here raise). -/
def Json.get? : Json → Str → Option Json
  | .obj fs, k => (fs.find? (fun p => p.1 == k)).map (·.2)
  | _, _ => none

/- The JSON field names the code dereferences. -/

def outputsKey : Str := "outputs".toList

def custom_idKey : Str := "custom_id".toList

def completion_errorKey : Str := "completion_error".toList

def textKey : Str := "text".toList

def finish_reasonKey : Str := "finish_reason".toList

def responseKey : Str := "response".toList

def bodyKey : Str := "body".toList

def choicesKey : Str := "choices".toList

def messageKey : Str := "message".toList

def contentKey : Str := "content".toList

def natural_textKey : Str := "natural_text".toList

def pdfKey : Str := "pdf".toList

/-! Decimal rendering and parsing: Python `str(int)` and `int(str)` -/

/-- The character for a single decimal digit `d < 10`. -/
def digitChar (d : Nat) : Char :=
  ['0', '1', '2', '3', '4', '5', '6', '7', '8', '9'].getD d '0'

/-- The numeric value of a decimal digit character, `none` for non-digits. -/
def digitVal (c : Char) : Option Nat :=
  if '0' ≤ c ∧ c ≤ '9' then some (c.toNat - 48) else none

/-- Fuelled big-endian decimal rendering; `fuel > n` suffices. -/
def natToCharsGo : Nat → Nat → Str
  | 0, _ => []
  | fuel + 1, n =>
    if n < 10 then [digitChar n]
    else natToCharsGo fuel (n / 10) ++ [digitChar (n % 10)]

/-- The canonical decimal numeral of a natural number, as Python's `str`
renders nonnegative integers. -/
def natToChars (n : Nat) : Str := natToCharsGo (n + 1) n

/-- Python `str` on an `int`: a minus sign followed by the digits for
negative values, the plain digits otherwise. -/
def intToChars : Int → Str
  | .ofNat n => natToChars n
  | .negSucc m => '-' :: natToChars (m + 1)

/-- Accumulator pass of decimal parsing over a digit string. -/
def pyNatAux : Str → Nat → Option Nat
  | [], acc => some acc
  | c :: cs, acc =>
    match digitVal c with
    | some d => pyNatAux cs (acc * 10 + d)
    | none => none

/-- Python `int(s)` restricted to plain decimal numerals with an optional
leading minus sign; `none` models the `ValueError` raised on anything else.
(Python's `int` also tolerates surrounding whitespace and underscores;
no claim depends on those inputs.) -/
def pyInt (s : Str) : Option Int :=
  match s with
  | [] => none
  | c :: cs =>
    if c = '-' then
      match cs with
      | [] => none
      | _ => (pyNatAux cs 0).map (fun m => -(m : Int))
    else
      (pyNatAux (c :: cs) 0).map (fun m => (m : Int))

/-- The index of the last `'-'` in a string, `none` when there is none:
Python's `s.rindex("-")`, with `none` modelling the `ValueError`. -/
def rindexDash : Str → Option Nat
  | [] => none
  | c :: cs =>
    match rindexDash cs with
    | some i => some (i + 1)
    | none => if c = '-' then some 0 else none

/-! `NormalizedEntry` (runeval.py) -/

/-- The common schema every supported JSON entry format is normalized to. -/
structure NormalizedEntry where
  s3_path : Str
  pagenum : Int
  text : Option Str
  finish_reason : Option Str
  error : Option Str := none
deriving DecidableEq, Repr

/-- The prefix/pagenum split performed by `NormalizedEntry.from_goldkey`:
split at the last `'-'` and parse the suffix as an `int`; `none` models the
`ValueError` raised by `rindex` (no dash) or `int` (non-numeral suffix). -/
def splitGoldkey (goldkey : Str) : Option (Str × Int) :=
  match rindexDash goldkey with
  | none => none
  | some i =>
    match pyInt (goldkey.drop (i + 1)) with
    | none => none
    | some n => some (goldkey.take i, n)

/-- `NormalizedEntry.from_goldkey`: builds an entry from a goldkey string,
taking `s3_path` up to the last `'-'` and `pagenum` from the suffix. -/
def NormalizedEntry.from_goldkey (goldkey : Str)
    (text finish_reason error : Option Str) : Option NormalizedEntry :=
  (splitGoldkey goldkey).map (fun p =>
    { s3_path := p.1, pagenum := p.2, text := text,
      finish_reason := finish_reason, error := error })

/-- The `goldkey` property: `f"{self.s3_path}-{self.pagenum}"`. -/
def NormalizedEntry.goldkey (e : NormalizedEntry) : Str :=
  e.s3_path ++ ['-'] ++ intToChars e.pagenum

/-! `normalize_json_entry` (runeval.py) -/

/-- Reads a JSON value that the Python code stores into an `Optional[str]`
slot: a string gives `some`, JSON `null` gives `none`; any other shape is
rejected (the modelled code paths raise on those, e.g. `json.loads` applied
to a non-string, and no claim exercises a non-string value here). -/
def asStrOrNull : Json → Option (Option Str)
  | .str s => some (some s)
  | .null => some none
  | _ => none

/-- The structured-output reparse attempted on a Birr `text` field:
`json.loads(text)` followed by `parsed_content["natural_text"]`, where only
`json.JSONDecodeError` is caught (keeping the raw text); a missing
`natural_text` key or a non-dict parse result propagates as an exception. -/
def applyStructured (loads : Str → Option Json) (text : Option Str) :
    Option (Option Str) :=
  match text with
  | none => some none
  | some s =>
    match loads s with
    | none => some (some s)
    | some j =>
      match j.get? natural_textKey with
      | some v => asStrOrNull v
      | none => none

/-- The Birr branch of `normalize_json_entry`: `data["outputs"]` is `None`
(no text, no finish reason) or a nonempty list whose head supplies `text`
and `finish_reason`; an empty list or any other shape models the
`IndexError`/`TypeError`/`KeyError` Python raises there. -/
def birrPayload (loads : Str → Option Json) (data : Json) :
    Option (Option Str × Option Str) :=
  match data.get? outputsKey with
  | some .null => some (none, none)
  | some (.arr (o :: _)) => do
    let t ← (o.get? textKey).bind asStrOrNull
    let fr ← (o.get? finish_reasonKey).bind asStrOrNull
    let t2 ← applyStructured loads t
    pure (t2, fr)
  | _ => none

/-- `data.get("completion_error", None)`: absent means `None`; a present
value is restricted to string-or-null (no claim exercises other shapes). -/
def getCompletionError (data : Json) : Option (Option Str) :=
  match data.get? completion_errorKey with
  | none => some none
  | some v => asStrOrNull v

/-- The OpenAI branch of `normalize_json_entry`: reads
`data["response"]["body"]["choices"][0]["message"]["content"]` (which must
be a string for `json.loads` not to raise) and the matching
`finish_reason`; when the content parses as JSON its `natural_text` field is
taken (a missing key propagates as `KeyError`, since only `JSONDecodeError`
is caught), otherwise the raw content is kept. -/
def openaiPayload (loads : Str → Option Json) (data : Json) :
    Option (Option Str × Option Str) := do
  let resp ← data.get? responseKey
  let body ← resp.get? bodyKey
  let choices ← body.get? choicesKey
  let c0 ← match choices with
    | .arr (c :: _) => some c
    | _ => none
  let msg ← c0.get? messageKey
  let content ← match msg.get? contentKey with
    | some (.str s) => some s
    | _ => none
  let fr ← (c0.get? finish_reasonKey).bind asStrOrNull
  match loads content with
  | some j =>
    match j.get? natural_textKey with
    | some v => do
      let t ← asStrOrNull v
      pure (t, fr)
    | none => none
  | none => pure (some content, fr)

/-- `normalize_json_entry`: dispatches on the presence of an `"outputs"` key
(Birr format) versus anything else (OpenAI batch format), then builds the
`NormalizedEntry` from the entry's `custom_id` via `from_goldkey`.
`loads` abstracts Python's `json.loads` on strings (`none` = JSON decode
error), and a `none` result models an uncaught exception. -/
def normalize_json_entry (loads : Str → Option Json) (data : Json) :
    Option NormalizedEntry := do
  let payload ←
    if (data.get? outputsKey).isSome then do
      let p ← birrPayload loads data
      let err ← getCompletionError data
      pure (p.1, p.2, err)
    else do
      let p ← openaiPayload loads data
      pure (p.1, p.2, (none : Option Str))
  let cid ← match data.get? custom_idKey with
    | some (.str s) => some s
    | _ => none
  NormalizedEntry.from_goldkey cid payload.1 payload.2.1 payload.2.2

/-! Well-formedness of entries (for the amended claim C2) -/

/-- A JSON value fits an `Optional[str]` slot. -/
def strOrNullB : Json → Bool
  | .str _ => true
  | .null => true
  | _ => false

/-- A text string whose structured reparse cannot raise: either it is not
valid JSON (the decode error is caught) or it parses to a dict whose
`natural_text` is a string or null. -/
def wfStructuredTextStr (loads : Str → Option Json) (s : Str) : Bool :=
  match loads s with
  | none => true
  | some j =>
    match j.get? natural_textKey with
    | some v => strOrNullB v
    | none => false

/-- Well-formedness of the OpenAI-format payload of an entry. -/
def wfOpenai (loads : Str → Option Json) (data : Json) : Bool :=
  match data.get? responseKey with
  | some resp =>
    match resp.get? bodyKey with
    | some body =>
      match body.get? choicesKey with
      | some (.arr (c :: _)) =>
        (match c.get? messageKey with
         | some msg =>
           match msg.get? contentKey with
           | some (.str s) => wfStructuredTextStr loads s
           | _ => false
         | none => false) &&
        (match c.get? finish_reasonKey with
         | some v => strOrNullB v
         | none => false)
      | _ => false
    | none => false
  | none => false

/-- Well-formedness of a JSON entry for `normalize_json_entry`: the
`custom_id` is a string that splits at its last dash with a decimal-numeral
suffix, and the format-specific payload fields have the shapes the code
dereferences without raising. -/
def wellFormedEntry (loads : Str → Option Json) (data : Json) : Bool :=
  (match data.get? custom_idKey with
   | some (.str cid) => (splitGoldkey cid).isSome
   | _ => false) &&
  (match data.get? outputsKey with
   | some .null =>
     (match data.get? completion_errorKey with
      | none => true
      | some v => strOrNullB v)
   | some (.arr (o :: _)) =>
     (match o.get? textKey with
      | some .null => true
      | some (.str s) => wfStructuredTextStr loads s
      | _ => false) &&
     (match o.get? finish_reasonKey with
      | some v => strOrNullB v
      | none => false) &&
     (match data.get? completion_errorKey with
      | none => true
      | some v => strOrNullB v)
   | some _ => false
   | none => wfOpenai loads data)

/-! Alignment scoring: `process_jsonl_file` and `do_eval` (runeval.py) -/

/-- The `HirschbergAligner` constructed in `do_eval`, recorded by its
constructor arguments; the alignment algorithm itself lives in the external
`dolma_refine` library. -/
structure HirschbergAligner where
  match_score : Int
  mismatch_score : Int
  indel_score : Int
deriving DecidableEq, Repr

/-- The `DocumentEditSimilarity` comparer constructed in `do_eval`, recorded
by its constructor arguments (the `SpacySegmenter` by the model name passed
to it); its `compute` method lives in the external library and is abstracted
as a parameter `compute : DocumentEditSimilarity → Str → Str → ℚ`. -/
structure DocumentEditSimilarity where
  segmenter : Str
  aligner : HirschbergAligner
deriving DecidableEq, Repr

/-- The comparer `do_eval` builds: a `SpacySegmenter("spacy")` and a
`HirschbergAligner(match_score=1, mismatch_score=-1, indel_score=-1)`. -/
def evalComparer : DocumentEditSimilarity :=
  { segmenter := "spacy".toList
    aligner := { match_score := 1, mismatch_score := -1, indel_score := -1 } }

/-- One row of the `page_data` dict built by `process_jsonl_file`. -/
structure PageData where
  s3_path : Str
  page : Int
  gold_text : Str
  eval_text : Str
  alignment : ℚ
deriving DecidableEq, Repr

/-- The per-file accumulators of `process_jsonl_file`. -/
structure FileTotals where
  total_alignment_score : ℚ
  char_weighted_alignment_score : ℚ
  total_chars : Nat
  total_pages : Nat
  page_data : List (Str × PageData)
deriving DecidableEq, Repr

/-- `page_data[key] = value` on a Python dict: overwrite in place when the
key exists, append otherwise (insertion order preserved). -/
def dictInsert (k : Str) (v : PageData) (d : List (Str × PageData)) :
    List (Str × PageData) :=
  if d.any (fun p => p.1 == k) then
    d.map (fun p => if p.1 == k then (k, v) else p)
  else d ++ [(k, v)]

/-- `data.goldkey in gold_data` plus `gold_data[data.goldkey]` on the gold
dict, modelled as an association list from goldkey to the (possibly `None`)
gold text: `none` when the key is absent. -/
def lookupGold (gold : List (Str × Option Str)) (k : Str) :
    Option (Option Str) :=
  (gold.find? (fun p => p.1 == k)).map (·.2)

/-- The loop body of `process_jsonl_file` over the parsed lines of one
`.jsonl` file, threading the running totals; a line that fails to normalize
aborts the whole file (the exception propagates out of the worker). -/
def process_lines (compute : DocumentEditSimilarity → Str → Str → ℚ)
    (comparer : DocumentEditSimilarity) (gold : List (Str × Option Str))
    (loads : Str → Option Json) : List Json → FileTotals → Option FileTotals
  | [], acc => some acc
  | line :: rest, acc => do
    let e ← normalize_json_entry loads line
    match lookupGold gold e.goldkey with
    | none => process_lines compute comparer gold loads rest acc
    | some gt =>
      let gold_text := gt.getD []
      let eval_text := e.text.getD []
      let alignment := compute comparer gold_text eval_text
      process_lines compute comparer gold loads rest
        { total_alignment_score := acc.total_alignment_score + alignment
          char_weighted_alignment_score :=
            acc.char_weighted_alignment_score +
              alignment * (gold_text.length : ℚ)
          total_chars := acc.total_chars + gold_text.length
          total_pages := acc.total_pages + 1
          page_data := dictInsert e.goldkey
            { s3_path := e.s3_path, page := e.pagenum,
              gold_text := gold_text, eval_text := eval_text,
              alignment := alignment } acc.page_data }

/-- `process_jsonl_file` on the parsed lines of one file, starting from
zeroed accumulators and an empty `page_data` dict. -/
def process_jsonl_file (compute : DocumentEditSimilarity → Str → Str → ℚ)
    (comparer : DocumentEditSimilarity) (gold : List (Str × Option Str))
    (loads : Str → Option Json) (lines : List Json) : Option FileTotals :=
  process_lines compute comparer gold loads lines
    { total_alignment_score := 0, char_weighted_alignment_score := 0,
      total_chars := 0, total_pages := 0, page_data := [] }

/-- `do_eval` restricted to its returned score: every file is processed with
the comparer built from `evalComparer`; the char-weighted scores and
character counts are summed over the files, and the quotient is returned.
`none` models the `ValueError` when no files are found, a worker exception
re-raised by `future.result()`, or the `ZeroDivisionError` when the total
weight is zero.  (The review-page generation and the sampled `page_eval_data`
also returned are file/RNG side effects that do not influence the score and
are not modelled.) -/
def do_eval (compute : DocumentEditSimilarity → Str → Str → ℚ)
    (gold : List (Str × Option Str)) (loads : Str → Option Json)
    (files : List (List Json)) : Option ℚ := do
  if files.isEmpty then none
  else
    let results ← files.mapM (process_jsonl_file compute evalComparer gold loads)
    let total_alignment_score :=
      (results.map (fun r => r.char_weighted_alignment_score)).sum
    let total_weight := (results.map (fun r => (r.total_chars : ℚ))).sum
    if total_weight = 0 then none
    else some (total_alignment_score / total_weight)

/-- The contribution of one normalized eval entry to the char-weighted total
and the character total, as the specification describes it: an entry whose
goldkey is present contributes `alignment * len(gold_text)` and
`len(gold_text)` (with `""` substituted for a `None` text on either side);
an absent goldkey contributes nothing. -/
def entryContrib (compute : DocumentEditSimilarity → Str → Str → ℚ)
    (comparer : DocumentEditSimilarity) (gold : List (Str × Option Str))
    (e : NormalizedEntry) : ℚ × Nat :=
  match lookupGold gold e.goldkey with
  | none => (0, 0)
  | some gt =>
    let gold_text := gt.getD []
    (compute comparer gold_text (e.text.getD []) * (gold_text.length : ℚ),
      gold_text.length)

/-! The HTML comparison viewer (viewer2.py) -/

/-- The index of the last occurrence of a character, `none` when absent. -/
def rindexChar (ch : Char) : Str → Option Nat
  | [] => none
  | c :: cs =>
    match rindexChar ch cs with
    | some i => some (i + 1)
    | none => if c = ch then some 0 else none

/-- `os.path.dirname` for the plain relative paths used here: everything
before the last `'/'` (empty when there is none). -/
def dirname (p : Str) : Str :=
  match rindexChar '/' p with
  | none => []
  | some i => p.take i

/-- `os.path.join` for a base directory and a relative component. -/
def pathJoin (a b : Str) : Str := a ++ '/' :: b

/-- ASCII `str.strip()` (Python also strips a few rarer whitespace
characters; the rules files at issue contain none of them). -/
def isSpace (c : Char) : Bool :=
  c = ' ' || c = '\t' || c = '\n' || c = '\r'

/-- Python `line.strip()`. -/
def pyStrip (s : Str) : Str :=
  ((s.dropWhile isSpace).reverse.dropWhile isSpace).reverse

/-- `pdf_name.replace(\'.\', \'-\')`, used for the HTML element ids. -/
def replaceDot (s : Str) : Str :=
  s.map (fun c => if c = '.' then '-' else c)

/-- Appends a rule under its pdf key, preserving the first-appearance order
of keys (Python dict insertion semantics via `defaultdict(list)`). -/
def addRule (k : Str) (r : Json) :
    List (Str × List Json) → List (Str × List Json)
  | [] => [(k, [r])]
  | (k2, rs) :: rest =>
    if k2 == k then (k2, rs ++ [r]) :: rest else (k2, rs) :: addRule k r rest

/-- `parse_rules_file`: strips each line, skips blanks, parses JSON (a parse
failure only prints a warning and skips the line), and groups the rules that
have a `"pdf"` key by that key.  Rules whose `"pdf"` value is not a string
are not modelled (a non-string value would make `os.path.join` raise later
in `generate_html`). -/
def parse_rules_file (loads : Str → Option Json) (lines : List Str) :
    List (Str × List Json) :=
  lines.foldl (fun acc line =>
    let line := pyStrip line
    if line.isEmpty then acc
    else
      match loads line with
      | none => acc
      | some rule =>
        match rule.get? pdfKey with
        | some (.str p) => addRule p rule acc
        | _ => acc) []

/-- `get_model_outputs`: runs both models inside a single `try`; if either
raises, the same `"Error: ..."` string is returned for both outputs.  The
runner functions are external and abstracted as `Except`-valued parameters
(`error` = the exception message). -/
def get_model_outputs (run_chatgpt run_gemini : Str → Except Str Str)
    (pdf_path : Str) : Str × Str :=
  match run_chatgpt pdf_path with
  | .error e => ("Error: ".toList ++ e, "Error: ".toList ++ e)
  | .ok chatgpt_output =>
    match run_gemini pdf_path with
    | .error e => ("Error: ".toList ++ e, "Error: ".toList ++ e)
    | .ok gemini_output => (chatgpt_output, gemini_output)

/-- The PDF-name selection at the top of `generate_html`: a provided truthy
(i.e. nonempty, non-`None`) list is used as is; otherwise the first 10 keys
of the parsed rules, in order. -/
def selectPdfNames (pdf_rules : List (Str × List Json))
    (pdfs_to_process : Option (List Str)) : List Str :=
  match pdfs_to_process with
  | some (p :: ps) => p :: ps
  | _ => (pdf_rules.map (fun pr => pr.1)).take 10

/-- The rendering step of the per-PDF loop: a successful
`render_pdf_to_base64png(pdf_path, 0)` (abstracted as `render`, already
fixed to page 0) becomes an `<img>` tag with the base64 data; an exception
becomes an error `<div>`. -/
def imgHtml (render : Str → Except Str Str) (pdf_path pdf_name : Str) : Str :=
  match render pdf_path with
  | .ok base64_img =>
    "<img src=\"data:image/png;base64,".toList ++ base64_img ++
      "\" alt=\"".toList ++ pdf_name ++ "\">".toList
  | .error e =>
    ("<div class=\"error\">Error rendering PDF: ".toList) ++ e ++
      ("</div>".toList)

/-- Pieces of the literal HTML fragments, split so the containment
claims can name the panels and the script. -/
def blockSeg10a : Str :=
  ("\x27)\">Show Differences</button>\n                    </div>\n                    <div class=\"model-outputs\">\n                        <div class=\"model-output\">\n                            ").toList

def cgPanelPre : Str :=
  ("<div class=\"model-header\">ChatGPT Output</div>\n                            <div class=\"model-content\" id=\"chatgpt-").toList

def seg12bStr : Str :=
  ("\n                        </div>\n                        <div class=\"model-output\">\n                            ").toList

def gmPanelPre : Str :=
  ("<div class=\"model-header\">Gemini Output</div>\n                            <div class=\"model-content\" id=\"gemini-").toList

def seg14restStr : Str :=
  ("\n                        </div>\n                    </div>\n                    <div class=\"difference-content\" id=\"diff-").toList

def footASt : Str :=
  ("\n        </div>\n        \n        <script>\n            // Store ratings\n            const ratings = \x7b\x7d;\n            \n            function rateModel(pdfId, rating) \x7b\n                // Save rating\n                ratings[pdfId] = rating;\n                \n                // Update visual indicator\n                const indicator = document.getElementById(`rating-$\x7bpdfId\x7d`);\n                indicator.textContent = rating.replace(\x27-\x27, \x27 \x27).toUpperCase();\n                \n                // Apply class matching the rating\n                indicator.className = \x27rating-indicator \x27 + rating;\n                \n                // Save ratings to localStorage\n                localStorage.setItem(\x27pdf-model-ratings\x27, JSON.stringify(ratings));\n            \x7d\n            \n            function toggleDifference(pdfId) \x7b\n                const diffElement = document.getElementById(`diff-$\x7bpdfId\x7d`);\n                const chatgptContent = document.getElementById(`chatgpt-$\x7bpdfId\x7d`).textContent;\n                const geminiContent = document.getElementById(`gemini-$\x7bpdfId\x7d`).textContent;\n                \n                if (diffElement.style.display === \x27none\x27 || !diffElement.style.display) \x7b\n                    diffElement.style.display = \x27block\x27;\n                    \n                    // If content is \"Loading differences...\", calculate differences\n                    if (diffElement.textContent.includes(\"Loading differences...\")) \x7b\n                        // Simple difference highlighting\n                        const diffResult = findDifferences(chatgptContent, geminiContent);\n                        diffElement.innerHTML = diffResult;\n                    \x7d\n                \x7d else \x7b\n                    diffElement.style.display = \x27none\x27;\n                \x7d\n            \x7d\n            \n            ").toList

def footBSt : Str :=
  (" \x7b\n                // Split into sentences for comparison\n                const sentences1 = text1.split(/(?<=[.!?])\\\\s+/);\n                const sentences2 = text2.split(/(?<=[.!?])\\\\s+/);\n                \n                let result = \"<h4>ChatGPT unique content:</h4><ul>\";\n                \n                // Find sentences in text1 that aren\x27t in text2\n                sentences1.forEach(sentence => \x7b\n                    if (sentence.trim().length > 10 && !text2.includes(sentence)) \x7b\n                        result += `<li><span class=\"highlight\">$\x7bsentence\x7d</span></li>`;\n                    \x7d\n                \x7d);\n                \n                result += \"</ul><h4>Gemini unique content:</h4><ul>\";\n                \n                // Find sentences in text2 that aren\x27t in text1\n                sentences2.forEach(sentence => \x7b\n                    if (sentence.trim().length > 10 && !text1.includes(sentence)) \x7b\n                        result += `<li><span class=\"highlight\">$\x7bsentence\x7d</span></li>`;\n                    \x7d\n                \x7d);\n                \n                result += \"</ul>\";\n                return result;\n            \x7d\n            \n            // Load saved ratings on page load\n            window.onload = function() \x7b\n                const savedRatings = localStorage.getItem(\x27pdf-model-ratings\x27);\n                if (savedRatings) \x7b\n                    const parsedRatings = JSON.parse(savedRatings);\n                    for (const pdfId in parsedRatings) \x7b\n                        rateModel(pdfId, parsedRatings[pdfId]);\n                    \x7d\n                \x7d\n            \x7d;\n        </script>\n    </body>\n    </html>\n    ").toList

def findDiffMarker : Str :=
  ("function findDifferences(text1, text2)").toList

def htmlHeader : Str :=
  ("\n    <!DOCTYPE html>\n    <html lang=\"en\">\n    <head>\n        <meta charset=\"UTF-8\">\n        <meta name=\"viewport\" content=\"width=device-width, initial-scale=1.0\">\n        <title>PDF Model Comparison</title>\n        <style>\n            body \x7b\n                font-family: Arial, sans-serif;\n                margin: 0;\n                padding: 20px;\n                background-color: #f5f5f5;\n            \x7d\n            \n            .container \x7b\n                max-width: 1800px;\n                margin: 0 auto;\n            \x7d\n            \n            h1 \x7b\n                color: #333;\n                text-align: center;\n                margin-bottom: 30px;\n            \x7d\n            \n            .pdf-container \x7b\n                background-color: white;\n                border-radius: 8px;\n                box-shadow: 0 2px 10px rgba(0, 0, 0, 0.1);\n                margin-bottom: 30px;\n                overflow: hidden;\n            \x7d\n            \n            .pdf-header \x7b\n                background-color: #4a6fa5;\n                color: white;\n                padding: 15px;\n                font-size: 18px;\n                font-weight: bold;\n                display: flex;\n                justify-content: space-between;\n                align-items: center;\n            \x7d\n            \n            .pdf-content \x7b\n                display: flex;\n                flex-direction: row;\n                padding: 20px;\n            \x7d\n            \n            @media (max-width: 1200px) \x7b\n                .pdf-content \x7b\n                    flex-direction: column;\n                \x7d\n            \x7d\n            \n            .pdf-image \x7b\n                flex: 0 0 30%;\n                max-width: 500px;\n                text-align: center;\n                padding-right: 20px;\n            \x7d\n            \n            .pdf-image img \x7b\n                max-width: 100%;\n                height: auto;\n                border: 1px solid #ddd;\n            \x7d\n            \n            .models-container \x7b\n                flex: 1;\n                display: flex;\n                flex-direction: column;\n            \x7d\n            \n            .model-outputs \x7b\n                display: flex;\n                flex-direction: row;\n                margin-bottom: 20px;\n            \x7d\n            \n            .model-output \x7b\n                flex: 1;\n                margin: 0 10px;\n                border: 1px solid #ddd;\n                border-radius: 5px;\n                overflow: hidden;\n            \x7d\n            \n            .model-header \x7b\n                background-color: #4a6fa5;\n                color: white;\n                padding: 10px;\n                font-weight: bold;\n                text-align: center;\n            \x7d\n            \n            .model-content \x7b\n                padding: 15px;\n                height: 400px;\n                overflow-y: auto;\n                white-space: pre-wrap;\n                font-family: monospace;\n                font-size: 14px;\n                background-color: #f8f9fa;\n            \x7d\n            \n            .difference-content \x7b\n                padding: 15px;\n                height: 200px;\n                overflow-y: auto;\n                white-space: pre-wrap;\n                font-family: monospace;\n                font-size: 14px;\n                background-color: #f8f9fa;\n                display: none;\n                margin-top: 20px;\n                border: 1px solid #ddd;\n                border-radius: 5px;\n            \x7d\n            \n            .controls \x7b\n                display: flex;\n                justify-content: space-between;\n                align-items: center;\n                margin-bottom: 20px;\n                padding: 10px;\n                background-color: #e9ecef;\n                border-radius: 5px;\n            \x7d\n            \n            .rating-controls \x7b\n                display: flex;\n                flex-wrap: wrap;\n                gap: 10px;\n            \x7d\n            \n            button \x7b\n                padding: 8px 15px;\n                border: none;\n                border-radius: 4px;\n                cursor: pointer;\n                font-weight: bold;\n                transition: background-color 0.2s;\n            \x7d\n            \n            button:hover \x7b\n                opacity: 0.9;\n            \x7d\n            \n            .rating-btn \x7b\n                flex: 1;\n                min-width: 120px;\n            \x7d\n            \n            .chatgpt-better \x7b\n                background-color: #28a745;\n                color: white;\n            \x7d\n            \n            .gemini-better \x7b\n                background-color: #dc3545;\n                color: white;\n            \x7d\n            \n            .both-good \x7b\n                background-color: #17a2b8;\n                color: white;\n            \x7d\n            \n            .both-bad \x7b\n                background-color: #6c757d;\n                color: white;\n            \x7d\n            \n            .invalid-pdf \x7b\n                background-color: #343a40;\n                color: white;\n            \x7d\n            \n            .show-diff-btn \x7b\n                background-color: #fd7e14;\n                color: white;\n            \x7d\n            \n            .highlight \x7b\n                background-color: #ffff99;\n            \x7d\n            \n            .rating-indicator \x7b\n                display: inline-block;\n                padding: 5px 10px;\n                border-radius: 4px;\n                color: white;\n                font-weight: bold;\n                margin-left: 10px;\n            \x7d\n            \n            .error \x7b\n                color: #dc3545;\n                padding: 20px;\n                text-align: center;\n                border: 1px solid #dc3545;\n                border-radius: 5px;\n                margin: 20px;\n            \x7d\n        </style>\n    </head>\n    <body>\n        <div class=\"container\">\n            <h1>PDF Model Comparison</h1>\n    ").toList

def htmlFooter : Str :=
  footASt ++ findDiffMarker ++ footBSt

def blockSeg0 : Str :=
  ("\n        <div class=\"pdf-container\" id=\"pdf-").toList

def blockSeg1 : Str :=
  ("\">\n            <div class=\"pdf-header\">\n                <span>").toList

def blockSeg2 : Str :=
  ("</span>\n                <span class=\"rating-indicator\" id=\"rating-").toList

def blockSeg3 : Str :=
  ("\"></span>\n            </div>\n            <div class=\"pdf-content\">\n                <div class=\"pdf-image\">\n                    ").toList

def blockSeg4 : Str :=
  ("\n                </div>\n                <div class=\"models-container\">\n                    <div class=\"controls\">\n                        <div class=\"rating-controls\">\n                            <button class=\"rating-btn chatgpt-better\" onclick=\"rateModel(\x27").toList

def blockSeg5 : Str :=
  ("\x27, \x27chatgpt\x27)\">ChatGPT Better</button>\n                            <button class=\"rating-btn gemini-better\" onclick=\"rateModel(\x27").toList

def blockSeg6 : Str :=
  ("\x27, \x27gemini\x27)\">Gemini Better</button>\n                            <button class=\"rating-btn both-good\" onclick=\"rateModel(\x27").toList

def blockSeg7 : Str :=
  ("\x27, \x27both-good\x27)\">Both Good</button>\n                            <button class=\"rating-btn both-bad\" onclick=\"rateModel(\x27").toList

def blockSeg8 : Str :=
  ("\x27, \x27both-bad\x27)\">Both Bad</button>\n                            <button class=\"rating-btn invalid-pdf\" onclick=\"rateModel(\x27").toList

def blockSeg9 : Str :=
  ("\x27, \x27invalid\x27)\">Invalid PDF</button>\n                        </div>\n                        <button class=\"show-diff-btn\" onclick=\"toggleDifference(\x27").toList

def blockSeg10 : Str :=
  blockSeg10a ++ cgPanelPre

def blockSeg11 : Str :=
  ("\">").toList

def blockSeg12 : Str :=
  ("</div>".toList) ++ seg12bStr ++ gmPanelPre

def blockSeg13 : Str :=
  ("\">").toList

def blockSeg14 : Str :=
  ("</div>".toList) ++ seg14restStr

def blockSeg15 : Str :=
  ("\">\n                        <h3>Differences</h3>\n                        <p>Loading differences...</p>\n                    </div>\n                </div>\n            </div>\n        </div>\n        ").toList

/-- The per-PDF block appended to `html` in the loop of `generate_html`
(the f-string, with its interpolations made explicit). -/
def pdfBlock (pdf_name img_html chatgpt_output gemini_output : Str) : Str :=
  let a := replaceDot pdf_name
  blockSeg0 ++ a ++ blockSeg1 ++ pdf_name ++ blockSeg2 ++ a ++ blockSeg3 ++
    img_html ++ blockSeg4 ++ a ++ blockSeg5 ++ a ++ blockSeg6 ++ a ++
    blockSeg7 ++ a ++ blockSeg8 ++ a ++ blockSeg9 ++ a ++ blockSeg10 ++ a ++
    blockSeg11 ++ chatgpt_output ++ blockSeg12 ++ a ++ blockSeg13 ++
    gemini_output ++ blockSeg14 ++ a ++ blockSeg15

/-- `generate_html`: selects the PDFs, renders each first page, fetches both
model outputs, and assembles the static header, one block per PDF, and the
footer holding the client-side script (ratings, toggling, and the
`findDifferences` sentence diff). -/
def generate_html (render run_chatgpt run_gemini : Str → Except Str Str)
    (pdf_rules : List (Str × List Json)) (rules_file_path : Str)
    (pdfs_to_process : Option (List Str)) : Str :=
  let pdf_names := selectPdfNames pdf_rules pdfs_to_process
  let pdf_bases := pathJoin (dirname rules_file_path) ("pdfs".toList)
  htmlHeader ++
    (pdf_names.map (fun pdf_name =>
      let pdf_path := pathJoin pdf_bases pdf_name
      let img := imgHtml render pdf_path pdf_name
      let outs := get_model_outputs run_chatgpt run_gemini pdf_path
      pdfBlock pdf_name img outs.1 outs.2)).flatten ++
  htmlFooter

/-! Literal decompositions used for the containment claims -/











/-- The `'ChatGPT Output'` panel for a given pdf and output text, exactly as
it appears in the per-PDF block. -/
def chatgptPanel (pdf_name chatgpt_output : Str) : Str :=
  cgPanelPre ++ replaceDot pdf_name ++ blockSeg11 ++ chatgpt_output ++
    ("</div>".toList)

/-- The `'Gemini Output'` panel for a given pdf and output text, exactly as
it appears in the per-PDF block. -/
def geminiPanel (pdf_name gemini_output : Str) : Str :=
  gmPanelPre ++ replaceDot pdf_name ++ blockSeg13 ++ gemini_output ++
    ("</div>".toList)

/-! Dataset preparation (spec-modelled) -/

/-- Modelled from the spec: the repository's
`pdelfin.train.dataprep.prepare_data_for_qwen2_training` (absent from the
sources; only its tests are present) supports `target_anchor_text_len`
being a list of lengths, and each preparation of an example draws one
length uniformly at random from that list ("randomized prompt-length
truncation").  The draw is modelled by an explicit random index `r`
reduced modulo the number of choices, which is uniform when `r` is. -/
def chosenAnchorLen (target_anchor_text_len : List Nat) (r : Nat) : Nat :=
  target_anchor_text_len.getD (r % target_anchor_text_len.length) 0

/-- Modelled from the spec: the anchor-text portion of the prompt built by
the absent dataprep code.  With anchor length 0 the block between
`RAW_TEXT_START` and `RAW_TEXT_END` holds only the page dimensions (the
pattern `testListTargetAnchorLength` matches); with a positive length it
additionally holds the anchor text truncated to that length. -/
def rawTextBlock (pageDims anchor : Str) (len : Nat) : Str :=
  if len = 0 then
    ("RAW_TEXT_START\nPage dimensions: ".toList) ++ pageDims ++
      ("\nRAW_TEXT_END".toList)
  else
    ("RAW_TEXT_START\nPage dimensions: ".toList) ++ pageDims ++
      ('\n' :: anchor.take len) ++ ("\nRAW_TEXT_END".toList)

/-- Modelled from the spec: the absent `prepare_data_for_qwen2_training`
tokenizes a prompt (chat template, image and anchor text: at least ten
tokens of boilerplate) and a response, and returns the example whose
`input_ids` are the prompt tokens, then the response tokens, then the
tokens of `"<|im_end|>\n"`. -/
structure QwenExample where
  prompt_ids : List Int
  response_ids : List Int
  im_end_ids : List Int
deriving DecidableEq, Repr

/-- Modelled from the spec: the `input_ids` of a prepared Qwen2 example. -/
def qwenInputIds (e : QwenExample) : List Int :=
  e.prompt_ids ++ e.response_ids ++ e.im_end_ids

/-- Modelled from the spec: the `labels` of a prepared Qwen2 example equal
its `input_ids` with every prompt position masked to -100. -/
def qwenLabels (e : QwenExample) : List Int :=
  e.prompt_ids.map (fun _ => -100) ++ e.response_ids ++ e.im_end_ids

/-! Order of first appearance (for claim C9) -/

/-- The pdf name a rules-file line contributes, if any: the line is
nonblank after stripping, parses as JSON, and has a string `"pdf"` key. -/
def pdfOfLine (loads : Str → Option Json) (line : Str) : Option Str :=
  let line := pyStrip line
  if line.isEmpty then none
  else
    match loads line with
    | none => none
    | some rule =>
      match rule.get? pdfKey with
      | some (.str p) => some p
      | _ => none

/-- Keeps the first occurrence of every element, skipping elements already
seen. -/
def dedupKeepFirstAux (seen : List Str) : List Str → List Str
  | [] => []
  | x :: xs =>
    if seen.contains x then dedupKeepFirstAux seen xs
    else x :: dedupKeepFirstAux (x :: seen) xs

/-- The distinct elements of a list in order of first appearance. -/
def dedupKeepFirst (l : List Str) : List Str := dedupKeepFirstAux [] l

/-! Claim C2 -/

/-- A Birr-format entry (it has an `"outputs"` key) whose `custom_id`
contains no dash. -/
def c2Entry : Json :=
  .obj [("custom_id".toList, .str ("nodash".toList)),
        ("outputs".toList, .null)]

/-- A concrete batch-API entry used by the C6 witness, with message
content `"oops"` (not valid JSON under the witness `loads`). -/
def c6Entry : Json :=
  .obj [("custom_id".toList, .str ("doc.pdf-4".toList)),
        ("response".toList, .obj
          [("body".toList, .obj
            [("choices".toList, .arr
              [.obj [("message".toList,
                        .obj [("content".toList, .str ("oops".toList))]),
                     ("finish_reason".toList, .str ("stop".toList))]])])])]

/-- Constant comparer used by the C1 and C3 witnesses. -/
def c1Compute : DocumentEditSimilarity → Str → Str → ℚ := fun _ _ _ => 1

/-- Gold data with one entry, used by the C1 and C3 witnesses. -/
def c1Gold : List (Str × Option Str) :=
  [("doc.pdf-4".toList, some ("ab".toList))]

/-- The normalized entries of the C1 witness file. -/
def c1Entries : List (List NormalizedEntry) :=
  [[{ s3_path := "doc.pdf".toList, pagenum := 4,
      text := some ("oops".toList), finish_reason := some ("stop".toList),
      error := none }]]

/-- The single page row produced by the C3 witness run (the alignment kept
in its unevaluated comparer form). -/
def c3Pd : PageData :=
  { s3_path := "doc.pdf".toList, page := 4, gold_text := "ab".toList,
    eval_text := "oops".toList,
    alignment := c1Compute evalComparer ("ab".toList) ("oops".toList) }

/-- The totals produced by the C3 witness run. -/
def c3Totals : FileTotals :=
  { total_alignment_score :=
      0 + c1Compute evalComparer ("ab".toList) ("oops".toList)
    char_weighted_alignment_score :=
      0 + c1Compute evalComparer ("ab".toList) ("oops".toList) *
        ((("ab".toList)).length : ℚ)
    total_chars := 0 + ("ab".toList).length
    total_pages := 0 + 1
    page_data := [("doc.pdf-4".toList, c3Pd)] }

/-- The step function of the `parse_rules_file` fold. -/
def parseRulesStep (loads : Str → Option Json)
    (acc : List (Str × List Json)) (line : Str) : List (Str × List Json) :=
  let line := pyStrip line
  if line.isEmpty then acc
  else
    match loads line with
    | none => acc
    | some rule =>
      match rule.get? pdfKey with
      | some (.str p) => addRule p rule acc
      | _ => acc

/-! Basic lemmas about digits, rendering and parsing -/

theorem digitVal_digitChar {d : Nat} (h : d < 10) :
    digitVal (digitChar d) = some d := by
  interval_cases d <;> decide

theorem digitChar_ne_dash {d : Nat} (h : d < 10) : digitChar d ≠ '-' := by
  interval_cases d <;> decide

theorem pyNatAux_append (xs ys : Str) (acc : Nat) :
    pyNatAux (xs ++ ys) acc =
      (pyNatAux xs acc).bind (fun m => pyNatAux ys m) := by
  induction xs generalizing acc with
  | nil => rfl
  | cons c cs ih =>
    simp only [List.cons_append, pyNatAux]
    cases digitVal c with
    | none => rfl
    | some d => simp [ih]

/-- Every character emitted by the fuelled renderer is a decimal digit. -/
theorem natToCharsGo_digits (fuel : Nat) :
    ∀ n, n < fuel → ∀ c ∈ natToCharsGo fuel n, ∃ d, d < 10 ∧ c = digitChar d := by
  induction fuel with
  | zero => intro n h; omega
  | succ fuel ih =>
    intro n _ c hc
    by_cases h10 : n < 10
    · simp only [natToCharsGo, if_pos h10, List.mem_singleton] at hc
      exact ⟨n, h10, hc⟩
    · simp only [natToCharsGo, if_neg h10, List.mem_append,
        List.mem_singleton] at hc
      rcases hc with hc | hc
      · exact ih (n / 10) (by omega) c hc
      · exact ⟨n % 10, Nat.mod_lt _ (by omega), hc⟩

theorem natToChars_digits {n : Nat} {c : Char} (hc : c ∈ natToChars n) :
    ∃ d, d < 10 ∧ c = digitChar d :=
  natToCharsGo_digits (n + 1) n (Nat.lt_succ_self n) c hc

theorem natToChars_ne_dash {n : Nat} {c : Char} (hc : c ∈ natToChars n) :
    c ≠ '-' := by
  obtain ⟨d, hd, rfl⟩ := natToChars_digits hc
  exact digitChar_ne_dash hd

/-- Parsing the fuelled rendering recovers the number. -/
theorem pyNatAux_natToCharsGo (fuel : Nat) :
    ∀ n, n < fuel → ∀ acc, pyNatAux (natToCharsGo fuel n) acc =
      some (acc * 10 ^ (natToCharsGo fuel n).length + n) := by
  induction fuel with
  | zero => intro n h; omega
  | succ fuel ih =>
    intro n hn acc
    by_cases h10 : n < 10
    · simp [natToCharsGo, if_pos h10, pyNatAux, digitVal_digitChar h10]
    · have hdiv : n / 10 < fuel := by
        have : n / 10 < n := Nat.div_lt_self (by omega) (by omega)
        omega
      simp only [natToCharsGo, if_neg h10, pyNatAux_append]
      rw [ih (n / 10) hdiv acc]
      simp only [Option.bind_some, pyNatAux,
        digitVal_digitChar (Nat.mod_lt n (show 0 < 10 by omega))]
      have : (acc * 10 ^ (natToCharsGo fuel (n / 10)).length + n / 10) * 10
          + n % 10 = acc * 10 ^ ((natToCharsGo fuel (n / 10)).length + 1) + n := by
        rw [pow_succ]
        have := Nat.div_add_mod n 10
        ring_nf
        omega
      simp [List.length_append, this]

theorem pyNatAux_natToChars (n : Nat) : pyNatAux (natToChars n) 0 = some n := by
  have := pyNatAux_natToCharsGo (n + 1) n (Nat.lt_succ_self n) 0
  simpa using this

theorem natToChars_ne_nil (n : Nat) : natToChars n ≠ [] := by
  unfold natToChars natToCharsGo
  by_cases h10 : n < 10 <;> simp [h10]

/-- Parsing the canonical numeral of a natural number succeeds. -/
theorem pyInt_natToChars (n : Nat) : pyInt (natToChars n) = some (n : Int) := by
  cases h : natToChars n with
  | nil => exact absurd h (natToChars_ne_nil n)
  | cons c cs =>
    have hcdash : c ≠ '-' :=
      natToChars_ne_dash (by rw [h]; exact List.mem_cons_self c cs)
    have := pyNatAux_natToChars n
    rw [h] at this
    simp [pyInt, if_neg hcdash, this]

/-- A string of non-dash characters has no last dash. -/
theorem rindexDash_eq_none {s : Str} (h : ∀ c ∈ s, c ≠ '-') :
    rindexDash s = none := by
  induction s with
  | nil => rfl
  | cons c cs ih =>
    have hc : c ≠ '-' := h c (List.mem_cons_self c cs)
    have : rindexDash cs = none := ih (fun x hx => h x (List.mem_cons_of_mem c hx))
    simp [rindexDash, this, hc]

/-- The last dash of `p ++ '-' :: ds` with a dash-free suffix `ds` is the
separator, at index `p.length`. -/
theorem rindexDash_append (p ds : Str) (h : ∀ c ∈ ds, c ≠ '-') :
    rindexDash (p ++ '-' :: ds) = some p.length := by
  induction p with
  | nil => simp [rindexDash, rindexDash_eq_none h]
  | cons c cs ih => simp [rindexDash, ih]

theorem splitGoldkey_append (p ds : Str) (n : Int)
    (hds : ∀ c ∈ ds, c ≠ '-') (hn : pyInt ds = some n) :
    splitGoldkey (p ++ '-' :: ds) = some (p, n) := by
  have hr := rindexDash_append p ds hds
  have htake : (p ++ '-' :: ds).take p.length = p :=
    List.take_left p ('-' :: ds)
  have hdrop : (p ++ '-' :: ds).drop (p.length + 1) = ds := by
    have : (p ++ '-' :: ds) = (p ++ ['-']) ++ ds := by simp
    rw [this]
    have hlen : (p ++ ['-']).length = p.length + 1 := by simp
    rw [← hlen]
    exact List.drop_left (p ++ ['-']) ds
  simp [splitGoldkey, hr, hdrop, htake, hn]

/-! Claim C10 -/

/-- Claim C10: if either model runner raises for a PDF, `get_model_outputs`
returns the same `"Error: <message>"` string as the output of both models
(a failure of one model also replaces the other model's output in the
report); when neither raises, it returns the two outputs unchanged. -/
theorem c10_get_model_outputs_errors
    (run_chatgpt run_gemini : Str → Except Str Str) (pdf_path : Str) :
    (∀ e, run_chatgpt pdf_path = .error e →
      get_model_outputs run_chatgpt run_gemini pdf_path =
        ("Error: ".toList ++ e, "Error: ".toList ++ e)) ∧
    (∀ c e, run_chatgpt pdf_path = .ok c → run_gemini pdf_path = .error e →
      get_model_outputs run_chatgpt run_gemini pdf_path =
        ("Error: ".toList ++ e, "Error: ".toList ++ e)) ∧
    (∀ c g, run_chatgpt pdf_path = .ok c → run_gemini pdf_path = .ok g →
      get_model_outputs run_chatgpt run_gemini pdf_path = (c, g)) := by
  refine ⟨fun e he => ?_, fun c e hc he => ?_, fun c g hc hg => ?_⟩ <;>
    simp [get_model_outputs, *]

/-- Witness for C10: a chatgpt runner that raises makes both outputs the
same error string. -/
theorem c10_get_model_outputs_errors_witness :
    get_model_outputs (fun _ => Except.error ("boom".toList))
        (fun _ => Except.ok ("g".toList)) [] =
      ("Error: ".toList ++ "boom".toList, "Error: ".toList ++ "boom".toList) :=
  (c10_get_model_outputs_errors (fun _ => Except.error ("boom".toList))
    (fun _ => Except.ok ("g".toList)) []).1 ("boom".toList) rfl

/-! Claim C8 -/

/-- Counterexample to claim C8 as stated: for the negative page number -1
the rendered goldkey is `"a--1"`, whose last dash sits inside the rendered
number, so `from_goldkey` recovers `s3_path = "a-"` and `pagenum = 1`
rather than the original pair. -/
theorem c8_goldkey_roundtrip_counterexample :
    NormalizedEntry.from_goldkey
        (NormalizedEntry.goldkey
          { s3_path := ['a'], pagenum := -1, text := none,
            finish_reason := none, error := none }) none none none ≠
      some { s3_path := ['a'], pagenum := -1, text := none,
             finish_reason := none, error := none } := by decide

/-- Claim C8 (amended): for every `s3_path` and every nonnegative
`pagenum`, `from_goldkey` applied to the `goldkey` property recovers
exactly the same `s3_path` and `pagenum` (dashes inside the path are
preserved, the split being taken at the last dash); conversely, for every
key whose suffix after its last dash is a canonical decimal numeral
(`natToChars n`), `from_goldkey` succeeds and its `goldkey` reproduces the
key. -/
theorem c8_goldkey_roundtrip_nonneg :
    (∀ (p : Str) (k : Nat) (t fr err : Option Str),
      NormalizedEntry.from_goldkey
          (NormalizedEntry.goldkey
            { s3_path := p, pagenum := (k : Int), text := t,
              finish_reason := fr, error := err }) t fr err =
        some { s3_path := p, pagenum := (k : Int), text := t,
               finish_reason := fr, error := err }) ∧
    (∀ (p : Str) (n : Nat) (t fr err : Option Str),
      NormalizedEntry.from_goldkey (p ++ '-' :: natToChars n) t fr err =
        some { s3_path := p, pagenum := (n : Int), text := t,
               finish_reason := fr, error := err } ∧
      NormalizedEntry.goldkey
          { s3_path := p, pagenum := (n : Int), text := t,
            finish_reason := fr, error := err } = p ++ '-' :: natToChars n) := by
  have key : ∀ (p : Str) (n : Nat) (t fr err : Option Str),
      NormalizedEntry.from_goldkey (p ++ '-' :: natToChars n) t fr err =
        some { s3_path := p, pagenum := (n : Int), text := t,
               finish_reason := fr, error := err } := by
    intro p n t fr err
    have hsplit := splitGoldkey_append p (natToChars n) (n : Int)
      (fun c hc => natToChars_ne_dash hc) (pyInt_natToChars n)
    simp [NormalizedEntry.from_goldkey, hsplit]
  have hgk : ∀ (p : Str) (n : Nat) (t fr err : Option Str),
      NormalizedEntry.goldkey
          { s3_path := p, pagenum := (n : Int), text := t,
            finish_reason := fr, error := err } = p ++ '-' :: natToChars n := by
    intro p n t fr err
    show p ++ ['-'] ++ intToChars (n : Int) = p ++ '-' :: natToChars n
    have hi : intToChars (n : Int) = natToChars n := rfl
    rw [hi]
    simp
  exact ⟨fun p k t fr err => by rw [hgk p k t fr err]; exact key p k t fr err,
    fun p n t fr err => ⟨key p n t fr err, hgk p n t fr err⟩⟩

/-! Claim C5 -/

theorem filter_eq_range (L i : Nat) (h : i < L) :
    (List.range L).filter (fun x => x = i) = [i] := by
  induction L with
  | zero => omega
  | succ L ih =>
    rw [List.range_succ, List.filter_append]
    rcases Nat.lt_or_ge i L with hi | hi
    · have hne : ¬ (L = i) := by omega
      simp [ih hi, hne]
    · have hiL : i = L := by omega
      subst hiL
      have hnil : (List.range i).filter (fun x => x = i) = [] := by
        rw [List.filter_eq_nil_iff]
        intro x hx
        have := List.mem_range.mp hx
        simp
        omega
      simp [hnil]

/-- Drawing an index uniformly: over any window of `m` full cycles of the
modulus, each residue class is hit exactly `m` times. -/
theorem count_mod_range (L i : Nat) (h : i < L) (m : Nat) :
    ((List.range (L * m)).filter (fun r => r % L = i)).length = m := by
  induction m with
  | zero => simp
  | succ m ih =>
    rw [Nat.mul_succ, List.range_add, List.filter_append, List.length_append,
      ih]
    have hmap : (((List.range L).map (fun x => L * m + x)).filter
        (fun r => r % L = i)).length =
        ((List.range L).filter (fun x => (L * m + x) % L = i)).length := by
      rw [List.filter_map, List.length_map]
      rfl
    rw [hmap]
    have hcongr : (List.range L).filter (fun x => (L * m + x) % L = i) =
        (List.range L).filter (fun x => x = i) := by
      apply List.filter_congr
      intro x hx
      have hxL := List.mem_range.mp hx
      have : (L * m + x) % L = x := by
        rw [Nat.mul_add_mod]
        exact Nat.mod_eq_of_lt hxL
      simp [this]
    rw [hcongr, filter_eq_range L i h]
    simp

/-- Claim C5: when `target_anchor_text_len` is a list, the anchor length of
a prepared example is drawn uniformly from it (every residue of the random
index picks the corresponding list element, and over full cycles each index
is drawn equally often); with the list `[0, 6000]`, half of the draws give
anchor length 0 — whose prompt holds only the page dimensions between
RAW_TEXT_START and RAW_TEXT_END — and half give the full length 6000. -/
theorem c5_anchor_len_uniform_choice (ls : List Nat) (i m : Nat)
    (h : i < ls.length) :
    (∀ r, r % ls.length = i → chosenAnchorLen ls r = ls.getD i 0) ∧
    ((List.range (ls.length * m)).filter
        (fun r => r % ls.length = i)).length = m ∧
    (∀ m2 : Nat,
      ((List.range (2 * m2)).filter
          (fun r => chosenAnchorLen [0, 6000] r = 0)).length = m2 ∧
      ((List.range (2 * m2)).filter
          (fun r => chosenAnchorLen [0, 6000] r = 6000)).length = m2) ∧
    (∀ pageDims anchor : Str, rawTextBlock pageDims anchor 0 =
      ("RAW_TEXT_START\nPage dimensions: ".toList) ++ pageDims ++
        ("\nRAW_TEXT_END".toList)) := by
  refine ⟨fun r hr => by rw [chosenAnchorLen, hr], count_mod_range _ _ h m,
    fun m2 => ⟨?_, ?_⟩, fun pageDims anchor => by simp [rawTextBlock]⟩
  · have hc : (List.range (2 * m2)).filter
        (fun r => chosenAnchorLen [0, 6000] r = 0) =
        (List.range (2 * m2)).filter (fun r => r % 2 = 0) := by
      apply List.filter_congr
      intro x _
      rcases Nat.mod_two_eq_zero_or_one x with hx | hx <;>
        simp [chosenAnchorLen, hx]
    rw [hc, count_mod_range 2 0 (by omega) m2]
  · have hc : (List.range (2 * m2)).filter
        (fun r => chosenAnchorLen [0, 6000] r = 6000) =
        (List.range (2 * m2)).filter (fun r => r % 2 = 1) := by
      apply List.filter_congr
      intro x _
      rcases Nat.mod_two_eq_zero_or_one x with hx | hx <;>
        simp [chosenAnchorLen, hx]
    rw [hc, count_mod_range 2 1 (by omega) m2]

/-- Witness for C5: with the two-element list `[0, 6000]` and one full
cycle of draws, the zero length and the full length are each drawn once,
and index 0 being drawn yields element 0. -/
theorem c5_anchor_len_uniform_choice_witness :
    chosenAnchorLen [0, 6000] 0 = [0, 6000].getD 0 0 ∧
    ((List.range (2 * 1)).filter
        (fun r => chosenAnchorLen [0, 6000] r = 0)).length = 1 := by
  have h := c5_anchor_len_uniform_choice [0, 6000] 0 1 (by decide)
  exact ⟨h.1 0 (by decide), (h.2.2.1 1).1⟩

/-! Claim C7 -/

theorem findIdx_append_of_forall_false {p : Int → Bool} :
    ∀ (pre rest : List Int), (∀ x ∈ pre, p x = false) →
      ∀ c cs, rest = c :: cs → p c = true →
      (pre ++ rest).findIdx p = pre.length := by
  intro pre
  induction pre with
  | nil =>
    intro rest _ c cs hrest hc
    subst hrest
    simp [List.findIdx_cons, hc]
  | cons a pre ih =>
    intro rest hall c cs hrest hc
    have ha : p a = false := hall a (List.mem_cons_self a pre)
    simp only [List.cons_append, List.findIdx_cons, ha, cond_false,
      List.length_cons]
    rw [ih rest (fun x hx => hall x (List.mem_cons_of_mem a hx)) c cs hrest hc]

/-- Claim C7 (spec-modelled): every prepared Qwen2 training example whose
prompt is at least 10 tokens satisfies the label-masking invariant: the
labels are -100 exactly on the prompt positions (so the first unmasked
position is the prompt length, at least 10), the labels equal the
corresponding input ids from there on, and the input ids as well as the
unmasked labels end with the token sequence of `"<|im_end|>\n"`. -/
theorem c7_qwen_label_masking (e : QwenExample)
    (h10 : 10 ≤ e.prompt_ids.length)
    (hpos : ∀ t ∈ e.response_ids ++ e.im_end_ids, 0 ≤ t)
    (hend : e.im_end_ids ≠ []) :
    (qwenLabels e).take e.prompt_ids.length =
        List.replicate e.prompt_ids.length (-100) ∧
    (qwenLabels e).findIdx (fun t => t ≠ -100) = e.prompt_ids.length ∧
    10 ≤ (qwenLabels e).findIdx (fun t => t ≠ -100) ∧
    (qwenLabels e).drop e.prompt_ids.length =
        (qwenInputIds e).drop e.prompt_ids.length ∧
    e.im_end_ids <:+ qwenInputIds e ∧
    e.im_end_ids <:+ (qwenLabels e).filter (fun t => t ≠ -100) := by
  have hmask : e.prompt_ids.map (fun _ => (-100 : Int)) =
      List.replicate e.prompt_ids.length (-100) := by
    simp [List.map_const']
  have hrest : e.response_ids ++ e.im_end_ids ≠ [] := by
    intro hc
    exact hend (List.append_eq_nil.mp hc).2
  obtain ⟨c, cs, hccs⟩ := List.exists_cons_of_ne_nil hrest
  have hc0 : (0 : Int) ≤ c := by
    apply hpos
    rw [hccs]
    exact List.mem_cons_self c cs
  have hlen : (e.prompt_ids.map (fun _ => (-100 : Int))).length =
      e.prompt_ids.length := List.length_map _ _
  have htake : (qwenLabels e).take e.prompt_ids.length =
      List.replicate e.prompt_ids.length (-100) := by
    have h := List.take_left (e.prompt_ids.map (fun _ => (-100 : Int)))
      (e.response_ids ++ e.im_end_ids)
    rw [hlen] at h
    rw [qwenLabels, List.append_assoc, h, hmask]
  have hfind : (qwenLabels e).findIdx (fun t => t ≠ -100) =
      e.prompt_ids.length := by
    rw [qwenLabels, List.append_assoc, ← hlen]
    rw [findIdx_append_of_forall_false (e.prompt_ids.map (fun _ => (-100 : Int)))
      (e.response_ids ++ e.im_end_ids) ?_ c cs hccs ?_]
    · intro x hx
      obtain ⟨_, _, rfl⟩ := List.mem_map.mp hx
      simp
    · simp
      omega
  have hdropL : (qwenLabels e).drop e.prompt_ids.length =
      e.response_ids ++ e.im_end_ids := by
    rw [qwenLabels, List.append_assoc, ← hlen, List.drop_left]
  have hdropI : (qwenInputIds e).drop e.prompt_ids.length =
      e.response_ids ++ e.im_end_ids := by
    rw [qwenInputIds, List.append_assoc, List.drop_left]
  have hfilter : (qwenLabels e).filter (fun t => t ≠ -100) =
      e.response_ids ++ e.im_end_ids := by
    rw [qwenLabels, List.append_assoc, List.filter_append]
    have h1 : (e.prompt_ids.map (fun _ => (-100 : Int))).filter
        (fun t => t ≠ -100) = [] := by
      rw [List.filter_eq_nil_iff]
      intro x hx
      obtain ⟨_, _, rfl⟩ := List.mem_map.mp hx
      simp
    have h2 : (e.response_ids ++ e.im_end_ids).filter (fun t => t ≠ -100) =
        e.response_ids ++ e.im_end_ids := by
      rw [List.filter_eq_self]
      intro x hx
      have := hpos x hx
      simp
      omega
    rw [h1, h2, List.nil_append]
  refine ⟨htake, hfind, by omega, by rw [hdropL, hdropI],
    ⟨e.prompt_ids ++ e.response_ids, by rw [qwenInputIds, List.append_assoc]⟩,
    by rw [hfilter]; exact ⟨e.response_ids, rfl⟩⟩

/-- Witness for C7: a concrete example with a 10-token prompt, a one-token
response and the two `<|im_end|>\n` token ids. -/
theorem c7_qwen_label_masking_witness :
    (qwenLabels
        { prompt_ids := [1, 2, 3, 4, 5, 6, 7, 8, 9, 10],
          response_ids := [42], im_end_ids := [151645, 198] }).findIdx
      (fun t => t ≠ -100) = 10 :=
  (c7_qwen_label_masking
    { prompt_ids := [1, 2, 3, 4, 5, 6, 7, 8, 9, 10],
      response_ids := [42], im_end_ids := [151645, 198] }
    (by decide) (by decide) (by decide)).2.1

/-- Counterexample to claim C2 as stated: on a Birr-format entry whose
`custom_id` has no dash, `normalize_json_entry` raises (the `rindex` in
`from_goldkey` raises `ValueError`) instead of returning a
`NormalizedEntry`. -/
theorem c2_normalize_raises_counterexample :
    normalize_json_entry (fun _ => none) c2Entry = none := by decide

theorem strOrNullB_isSome {v : Json} (h : strOrNullB v = true) :
    ∃ o, asStrOrNull v = some o := by
  cases v <;> simp_all [strOrNullB, asStrOrNull]

theorem wfStructuredTextStr_applyStructured {loads : Str → Option Json}
    {s : Str} (h : wfStructuredTextStr loads s = true) :
    ∃ o, applyStructured loads (some s) = some o := by
  cases hl : loads s with
  | none => exact ⟨some s, by simp [applyStructured, hl]⟩
  | some j =>
    unfold wfStructuredTextStr at h
    rw [hl] at h
    simp only [] at h
    cases hnt : j.get? natural_textKey with
    | none => rw [hnt] at h; simp at h
    | some v =>
      rw [hnt] at h
      simp only [] at h
      obtain ⟨o, ho⟩ := strOrNullB_isSome h
      exact ⟨o, by simp [applyStructured, hl, hnt, ho]⟩

theorem wfOpenai_payload {loads : Str → Option Json} {data : Json}
    (h : wfOpenai loads data = true) :
    ∃ pr, openaiPayload loads data = some pr := by
  unfold wfOpenai at h
  cases hresp : data.get? responseKey with
  | none => rw [hresp] at h; simp at h
  | some resp =>
    rw [hresp] at h
    simp only [] at h
    cases hbody : resp.get? bodyKey with
    | none => rw [hbody] at h; simp at h
    | some body =>
      rw [hbody] at h
      simp only [] at h
      cases hch : body.get? choicesKey with
      | none => rw [hch] at h; simp at h
      | some ch =>
        rw [hch] at h
        cases ch with
        | arr elems =>
          cases elems with
          | nil => simp at h
          | cons c0 rest =>
            simp only [] at h
            rw [Bool.and_eq_true] at h
            obtain ⟨hcon, hfin⟩ := h
            cases hmsg : c0.get? messageKey with
            | none => rw [hmsg] at hcon; simp at hcon
            | some msg =>
              rw [hmsg] at hcon
              simp only [] at hcon
              cases hct : msg.get? contentKey with
              | none => rw [hct] at hcon; simp at hcon
              | some ctv =>
                rw [hct] at hcon
                cases ctv with
                | str s =>
                  simp only [] at hcon
                  cases hfrv : c0.get? finish_reasonKey with
                  | none => rw [hfrv] at hfin; simp at hfin
                  | some frv =>
                    rw [hfrv] at hfin
                    simp only [] at hfin
                    obtain ⟨fr, hfr⟩ := strOrNullB_isSome hfin
                    cases hl : loads s with
                    | none =>
                      exact ⟨(some s, fr), by
                        simp [openaiPayload, hresp, hbody, hch, hmsg, hct,
                          hfrv, hfr, hl]⟩
                    | some j =>
                      unfold wfStructuredTextStr at hcon
                      rw [hl] at hcon
                      simp only [] at hcon
                      cases hnt : j.get? natural_textKey with
                      | none => rw [hnt] at hcon; simp at hcon
                      | some v =>
                        rw [hnt] at hcon
                        simp only [] at hcon
                        obtain ⟨t, ht⟩ := strOrNullB_isSome hcon
                        exact ⟨(t, fr), by
                          simp [openaiPayload, hresp, hbody, hch, hmsg, hct,
                            hfrv, hfr, hl, hnt, ht]⟩
                | null => simp at hcon
                | bool b => simp at hcon
                | num n => simp at hcon
                | arr es => simp at hcon
                | obj fs => simp at hcon
        | null => simp at h
        | bool b => simp at h
        | num n => simp at h
        | str s => simp at h
        | obj fs => simp at h

theorem wf_birr_null_payload {data : Json}
    (hout : data.get? outputsKey = some .null)
    {loads : Str → Option Json} :
    birrPayload loads data = some (none, none) := by
  simp [birrPayload, hout]

theorem wf_completion_error {data : Json}
    (h : (match data.get? completion_errorKey with
          | none => true
          | some v => strOrNullB v) = true) :
    ∃ o, getCompletionError data = some o := by
  cases hce : data.get? completion_errorKey with
  | none => exact ⟨none, by simp [getCompletionError, hce]⟩
  | some v =>
    rw [hce] at h
    simp only [] at h
    obtain ⟨o, ho⟩ := strOrNullB_isSome h
    exact ⟨o, by simp [getCompletionError, hce, ho]⟩

/-- Claim C2 (amended): for every entry of either format that is
well-formed — its `custom_id` is a string whose suffix after its last dash
is a decimal numeral, and the payload fields it dereferences have the
shapes the code expects — `normalize_json_entry` returns a
`NormalizedEntry` whose `s3_path` is the `custom_id` up to its last dash
and whose `pagenum` is the integer after that dash. -/
theorem c2_normalize_wellformed_total (loads : Str → Option Json)
    (data : Json) (h : wellFormedEntry loads data = true) :
    ∃ cid p n e, data.get? custom_idKey = some (.str cid) ∧
      splitGoldkey cid = some (p, n) ∧
      normalize_json_entry loads data = some e ∧
      e.s3_path = p ∧ e.pagenum = n := by
  unfold wellFormedEntry at h
  rw [Bool.and_eq_true] at h
  obtain ⟨h1, h2⟩ := h
  cases hcid : data.get? custom_idKey with
  | none => rw [hcid] at h1; simp at h1
  | some cv =>
    rw [hcid] at h1
    cases cv with
    | str cid =>
      simp only [] at h1
      rw [Option.isSome_iff_exists] at h1
      obtain ⟨⟨p, n⟩, hpn⟩ := h1
      refine ⟨cid, p, n, ?_⟩
      cases hout : data.get? outputsKey with
      | none =>
        rw [hout] at h2
        simp only [] at h2
        obtain ⟨pr, hpr⟩ := wfOpenai_payload h2
        exact ⟨{ s3_path := p, pagenum := n, text := pr.1,
                 finish_reason := pr.2, error := none }, rfl, hpn, by
          simp [normalize_json_entry, hout, hpr, hcid,
            NormalizedEntry.from_goldkey, hpn], rfl, rfl⟩
      | some ov =>
        rw [hout] at h2
        cases ov with
        | null =>
          simp only [] at h2
          obtain ⟨err, herr⟩ := wf_completion_error h2
          exact ⟨{ s3_path := p, pagenum := n, text := none,
                   finish_reason := none, error := err }, rfl, hpn, by
            simp [normalize_json_entry, hout, wf_birr_null_payload hout,
              herr, hcid, NormalizedEntry.from_goldkey, hpn], rfl, rfl⟩
        | arr elems =>
          cases elems with
          | nil => simp at h2
          | cons o rest =>
            simp only [] at h2
            rw [Bool.and_eq_true, Bool.and_eq_true] at h2
            obtain ⟨⟨htext, hfin⟩, hce⟩ := h2
            obtain ⟨err, herr⟩ := wf_completion_error hce
            have hfr : ∃ fr, (o.get? finish_reasonKey).bind
                asStrOrNull = some fr := by
              cases hfrv : o.get? finish_reasonKey with
              | none => rw [hfrv] at hfin; simp at hfin
              | some v =>
                rw [hfrv] at hfin
                simp only [] at hfin
                obtain ⟨fr, hfr⟩ := strOrNullB_isSome hfin
                exact ⟨fr, by simp [hfrv, hfr]⟩
            obtain ⟨fr, hfr⟩ := hfr
            have hT : ∃ t2 t, (o.get? textKey).bind asStrOrNull
                  = some t ∧ applyStructured loads t = some t2 := by
              cases htv : o.get? textKey with
              | none => rw [htv] at htext; simp at htext
              | some tv =>
                rw [htv] at htext
                cases tv with
                | null =>
                  exact ⟨none, none, by simp [htv, asStrOrNull],
                    by simp [applyStructured]⟩
                | str s =>
                  simp only [] at htext
                  obtain ⟨t2, ht2⟩ := wfStructuredTextStr_applyStructured htext
                  exact ⟨t2, some s, by simp [htv, asStrOrNull], ht2⟩
                | bool b => simp at htext
                | num m => simp at htext
                | arr es => simp at htext
                | obj fs => simp at htext
            obtain ⟨t2, t, ht, ht2⟩ := hT
            refine ⟨{ s3_path := p, pagenum := n, text := t2,
                      finish_reason := fr, error := err }, rfl, hpn, ?_,
              rfl, rfl⟩
            have hbp : birrPayload loads data = some (t2, fr) := by
              simp [birrPayload, hout, ht, hfr, ht2]
            simp [normalize_json_entry, hout, hbp, herr, hcid,
              NormalizedEntry.from_goldkey, hpn]
        | bool b => simp at h2
        | num m => simp at h2
        | str s => simp at h2
        | obj fs => simp at h2
    | null => simp at h1
    | bool b => simp at h1
    | num m => simp at h1
    | arr es => simp at h1
    | obj fs => simp at h1

/-- Witness for C2: a concrete well-formed Birr entry is normalized to the
path/page split of its `custom_id`. -/
theorem c2_normalize_wellformed_total_witness :
    wellFormedEntry (fun _ => none)
        (.obj [("custom_id".toList, .str ("doc.pdf-4".toList)),
               ("outputs".toList, .null)]) = true ∧
    ∃ cid p n e,
      (Json.obj [("custom_id".toList, .str ("doc.pdf-4".toList)),
                 ("outputs".toList, .null)]).get? custom_idKey =
          some (.str cid) ∧
      splitGoldkey cid = some (p, n) ∧
      normalize_json_entry (fun _ => none)
          (.obj [("custom_id".toList, .str ("doc.pdf-4".toList)),
                 ("outputs".toList, .null)]) = some e ∧
      e.s3_path = p ∧ e.pagenum = n :=
  ⟨by decide, c2_normalize_wellformed_total (fun _ => none) _ (by decide)⟩

/-! Claim C6 -/

/-- Claim C6: for a batch-API (OpenAI) format entry whose message content
is not valid JSON, `normalize_json_entry` falls back to the raw message
content as the entry's text, preserving the entry's `finish_reason`; when
the content is valid JSON, the text is the parsed content's `natural_text`
field instead. -/
theorem c6_openai_content_fallback (loads : Str → Option Json)
    (data resp body c0 msg : Json) (choicesRest : List Json)
    (s fr cid p : Str) (n : Int)
    (hout : data.get? outputsKey = none)
    (hresp : data.get? responseKey = some resp)
    (hbody : resp.get? bodyKey = some body)
    (hchoices : body.get? choicesKey = some (.arr (c0 :: choicesRest)))
    (hmsg : c0.get? messageKey = some msg)
    (hcontent : msg.get? contentKey = some (.str s))
    (hfr : c0.get? finish_reasonKey = some (.str fr))
    (hcid : data.get? custom_idKey = some (.str cid))
    (hsplit : splitGoldkey cid = some (p, n)) :
    (loads s = none →
      normalize_json_entry loads data =
        some { s3_path := p, pagenum := n, text := some s,
               finish_reason := some fr, error := none }) ∧
    (∀ j t, loads s = some j →
      j.get? natural_textKey = some (.str t) →
      normalize_json_entry loads data =
        some { s3_path := p, pagenum := n, text := some t,
               finish_reason := some fr, error := none }) := by
  constructor
  · intro hl
    simp [normalize_json_entry, hout, openaiPayload, hresp, hbody, hchoices,
      hmsg, hcontent, hfr, hl, asStrOrNull, hcid,
      NormalizedEntry.from_goldkey, hsplit]
  · intro j t hl hnt
    simp [normalize_json_entry, hout, openaiPayload, hresp, hbody, hchoices,
      hmsg, hcontent, hfr, hl, hnt, asStrOrNull, hcid,
      NormalizedEntry.from_goldkey, hsplit]

/-- Witness for C6: the concrete entry's non-JSON content is kept verbatim
with its finish reason. -/
theorem c6_openai_content_fallback_witness :
    normalize_json_entry (fun _ => none) c6Entry =
      some { s3_path := "doc.pdf".toList, pagenum := 4,
             text := some ("oops".toList),
             finish_reason := some ("stop".toList), error := none } :=
  (c6_openai_content_fallback (fun _ => none) c6Entry
    (.obj [("body".toList, .obj
      [("choices".toList, .arr
        [.obj [("message".toList,
                  .obj [("content".toList, .str ("oops".toList))]),
               ("finish_reason".toList, .str ("stop".toList))]])])])
    (.obj [("choices".toList, .arr
      [.obj [("message".toList,
                .obj [("content".toList, .str ("oops".toList))]),
             ("finish_reason".toList, .str ("stop".toList))]])])
    (.obj [("message".toList,
              .obj [("content".toList, .str ("oops".toList))]),
           ("finish_reason".toList, .str ("stop".toList))])
    (.obj [("content".toList, .str ("oops".toList))]) []
    ("oops".toList) ("stop".toList) ("doc.pdf-4".toList)
    ("doc.pdf".toList) 4
    rfl rfl rfl rfl rfl rfl rfl rfl (by decide)).1 rfl

/-! Claim C1 -/

/-- The running totals of `process_jsonl_file`: each normalized line whose
goldkey is in the gold data adds its alignment and `alignment * len` /
`len` contributions; other lines add nothing. -/
theorem process_lines_adds (compute : DocumentEditSimilarity → Str → Str → ℚ)
    (comparer : DocumentEditSimilarity) (gold : List (Str × Option Str))
    (loads : Str → Option Json) :
    ∀ (lines : List Json) (entries : List NormalizedEntry) (acc : FileTotals),
      lines.mapM (normalize_json_entry loads) = some entries →
      ∃ r, process_lines compute comparer gold loads lines acc = some r ∧
        r.char_weighted_alignment_score = acc.char_weighted_alignment_score +
          (entries.map (fun e =>
            (entryContrib compute comparer gold e).1)).sum ∧
        r.total_chars = acc.total_chars +
          (entries.map (fun e =>
            (entryContrib compute comparer gold e).2)).sum := by
  intro lines
  induction lines with
  | nil =>
    intro entries acc h
    simp only [List.mapM_nil, pure, Option.some.injEq] at h
    subst h
    exact ⟨acc, rfl, by simp, by simp⟩
  | cons line rest ih =>
    intro entries acc h
    rw [List.mapM_cons] at h
    cases hnl : normalize_json_entry loads line with
    | none => rw [hnl] at h; simp at h
    | some e =>
      rw [hnl] at h
      cases hrest : rest.mapM (normalize_json_entry loads) with
      | none => rw [hrest] at h; simp at h
      | some es =>
        rw [hrest] at h
        simp only [Option.bind_eq_bind, Option.some_bind, Option.pure_def,
          Option.some.injEq] at h
        subst h
        cases hlk : lookupGold gold e.goldkey with
        | none =>
          obtain ⟨r, hr, h1, h2⟩ := ih es acc hrest
          refine ⟨r, ?_, ?_, ?_⟩
          · simp only [process_lines, hnl, Option.bind_eq_bind,
              Option.some_bind, hlk]
            exact hr
          · rw [h1]
            simp [entryContrib, hlk]
          · rw [h2]
            simp [entryContrib, hlk]
        | some gt =>
          obtain ⟨r, hr, h1, h2⟩ := ih es
            { total_alignment_score := acc.total_alignment_score +
                compute comparer (gt.getD []) (e.text.getD [])
              char_weighted_alignment_score :=
                acc.char_weighted_alignment_score +
                  compute comparer (gt.getD []) (e.text.getD []) *
                    ((gt.getD []).length : ℚ)
              total_chars := acc.total_chars + (gt.getD []).length
              total_pages := acc.total_pages + 1
              page_data := dictInsert e.goldkey
                { s3_path := e.s3_path, page := e.pagenum,
                  gold_text := gt.getD [], eval_text := e.text.getD [],
                  alignment := compute comparer (gt.getD [])
                    (e.text.getD []) } acc.page_data } hrest
          refine ⟨r, ?_, ?_, ?_⟩
          · simp only [process_lines, hnl, Option.bind_eq_bind,
              Option.some_bind, hlk]
            exact hr
          · rw [h1]
            simp only [entryContrib, hlk, List.map_cons, List.sum_cons]
            ring
          · rw [h2]
            simp only [entryContrib, hlk, List.map_cons, List.sum_cons]
            omega

/-- Per-file totals, starting from the zeroed accumulators. -/
theorem process_jsonl_file_spec
    (compute : DocumentEditSimilarity → Str → Str → ℚ)
    (comparer : DocumentEditSimilarity) (gold : List (Str × Option Str))
    (loads : Str → Option Json) (lines : List Json)
    (entries : List NormalizedEntry)
    (h : lines.mapM (normalize_json_entry loads) = some entries) :
    ∃ r, process_jsonl_file compute comparer gold loads lines = some r ∧
      r.char_weighted_alignment_score =
        (entries.map (fun e =>
          (entryContrib compute comparer gold e).1)).sum ∧
      r.total_chars =
        (entries.map (fun e =>
          (entryContrib compute comparer gold e).2)).sum := by
  obtain ⟨r, hr, h1, h2⟩ := process_lines_adds compute comparer gold loads
    lines entries
    { total_alignment_score := 0, char_weighted_alignment_score := 0,
      total_chars := 0, total_pages := 0, page_data := [] } h
  exact ⟨r, hr, by simpa using h1, by simpa using h2⟩

theorem mapM_process_files
    (compute : DocumentEditSimilarity → Str → Str → ℚ)
    (gold : List (Str × Option Str)) (loads : Str → Option Json) :
    ∀ (files : List (List Json))
      (entriesPerFile : List (List NormalizedEntry)),
      files.mapM (fun f => f.mapM (normalize_json_entry loads)) =
        some entriesPerFile →
      ∃ results,
        files.mapM (process_jsonl_file compute evalComparer gold loads) =
          some results ∧
        results.map (fun r => r.char_weighted_alignment_score) =
          entriesPerFile.map (fun es => (es.map (fun e =>
            (entryContrib compute evalComparer gold e).1)).sum) ∧
        results.map (fun r => r.total_chars) =
          entriesPerFile.map (fun es => (es.map (fun e =>
            (entryContrib compute evalComparer gold e).2)).sum) := by
  intro files
  induction files with
  | nil =>
    intro epf h
    simp only [List.mapM_nil, pure, Option.some.injEq] at h
    subst h
    exact ⟨[], by rfl, by simp, by simp⟩
  | cons f rest ih =>
    intro epf h
    rw [List.mapM_cons] at h
    cases hf : f.mapM (normalize_json_entry loads) with
    | none => rw [hf] at h; simp at h
    | some es =>
      rw [hf] at h
      cases hrest : rest.mapM (fun f => f.mapM (normalize_json_entry loads)) with
      | none => rw [hrest] at h; simp at h
      | some esr =>
        rw [hrest] at h
        simp only [Option.bind_eq_bind, Option.some_bind, Option.pure_def,
          Option.some.injEq] at h
        subst h
        obtain ⟨r, hr, h1, h2⟩ :=
          process_jsonl_file_spec compute evalComparer gold loads f es hf
        obtain ⟨results, hres, hcw, hch⟩ := ih esr hrest
        refine ⟨r :: results, ?_, ?_, ?_⟩
        · rw [List.mapM_cons, hr, hres]
          rfl
        · simp [hcw, h1]
        · simp [hch, h2]

/-- Claim C1: `do_eval` computes the char-weighted alignment score — every
eval entry whose goldkey is in the gold data adds `alignment * len(gold)`
to the char-weighted total and `len(gold)` to the character total, absent
goldkeys contribute nothing, and the returned score is the sum of the
char-weighted totals over all files divided by the sum of the character
totals. -/
theorem c1_do_eval_char_weighted_score
    (compute : DocumentEditSimilarity → Str → Str → ℚ)
    (gold : List (Str × Option Str)) (loads : Str → Option Json)
    (files : List (List Json)) (entriesPerFile : List (List NormalizedEntry))
    (hne : files ≠ [])
    (hnorm : files.mapM (fun f => f.mapM (normalize_json_entry loads)) =
      some entriesPerFile)
    (hW : (entriesPerFile.map (fun es => (es.map (fun e =>
        (entryContrib compute evalComparer gold e).2)).sum)).sum ≠ 0) :
    do_eval compute gold loads files =
      some ((entriesPerFile.map (fun es => (es.map (fun e =>
          (entryContrib compute evalComparer gold e).1)).sum)).sum /
        ((entriesPerFile.map (fun es => (es.map (fun e =>
          (entryContrib compute evalComparer gold e).2)).sum)).sum : ℚ)) := by
  obtain ⟨results, hres, hcw, hch⟩ :=
    mapM_process_files compute gold loads files entriesPerFile hnorm
  have hie : files.isEmpty = false := by
    cases files with
    | nil => exact absurd rfl hne
    | cons a l => rfl
  have h1 : results.map (fun r => ((r.total_chars : ℚ))) =
      (results.map (fun r => r.total_chars)).map (fun n : Nat => (n : ℚ)) := by
    rw [List.map_map]
    rfl
  have hwq : (results.map (fun r => ((r.total_chars : ℚ)))).sum =
      (((entriesPerFile.map (fun es => (es.map (fun e =>
        (entryContrib compute evalComparer gold e).2)).sum)).sum : Nat) : ℚ) := by
    rw [h1, hch, ← Nat.cast_list_sum]
  have hwne : (((entriesPerFile.map (fun es => (es.map (fun e =>
      (entryContrib compute evalComparer gold e).2)).sum)).sum : Nat) : ℚ) ≠ 0 :=
    Nat.cast_ne_zero.mpr hW
  simp only [do_eval, hie, Bool.false_eq_true, if_false, hres,
    Option.bind_eq_bind, Option.some_bind, hcw, hwq, if_neg hwne]
  rw [Nat.cast_list_sum, List.map_map]
  rfl

/-! Claim C3 -/

theorem mem_dictInsert {k : Str} {v : PageData} {d : List (Str × PageData)}
    {kpd : Str × PageData} (h : kpd ∈ dictInsert k v d) :
    kpd ∈ d ∨ kpd = (k, v) := by
  unfold dictInsert at h
  by_cases hc : d.any (fun p => p.1 == k)
  · rw [if_pos hc] at h
    obtain ⟨p, hp, hpe⟩ := List.mem_map.mp h
    by_cases hpk : p.1 == k
    · rw [if_pos hpk] at hpe
      exact Or.inr hpe.symm
    · rw [if_neg hpk] at hpe
      exact Or.inl (hpe ▸ hp)
  · rw [if_neg hc] at h
    rcases List.mem_append.mp h with hm | hm
    · exact Or.inl hm
    · exact Or.inr (List.mem_singleton.mp hm)

/-- Every row of `page_data` carries an alignment equal to the abstract
comparer applied to its stored texts, the gold text being the gold-data
value with `""` substituted for `None`. -/
theorem process_lines_page_data_inv
    (compute : DocumentEditSimilarity → Str → Str → ℚ)
    (comparer : DocumentEditSimilarity) (gold : List (Str × Option Str))
    (loads : Str → Option Json) :
    ∀ (lines : List Json) (acc r : FileTotals),
      process_lines compute comparer gold loads lines acc = some r →
      (∀ kpd ∈ acc.page_data,
        kpd.2.alignment = compute comparer kpd.2.gold_text kpd.2.eval_text ∧
        ∃ gt, lookupGold gold kpd.1 = some gt ∧
          kpd.2.gold_text = gt.getD []) →
      ∀ kpd ∈ r.page_data,
        kpd.2.alignment = compute comparer kpd.2.gold_text kpd.2.eval_text ∧
        ∃ gt, lookupGold gold kpd.1 = some gt ∧
          kpd.2.gold_text = gt.getD [] := by
  intro lines
  induction lines with
  | nil =>
    intro acc r hr hacc
    simp only [process_lines, Option.some.injEq] at hr
    subst hr
    exact hacc
  | cons line rest ih =>
    intro acc r hr hacc
    simp only [process_lines] at hr
    cases hnl : normalize_json_entry loads line with
    | none => rw [hnl] at hr; simp at hr
    | some e =>
      rw [hnl] at hr
      simp only [Option.bind_eq_bind, Option.some_bind] at hr
      cases hlk : lookupGold gold e.goldkey with
      | none =>
        rw [hlk] at hr
        exact ih acc r hr hacc
      | some gt =>
        rw [hlk] at hr
        refine ih _ r hr ?_
        intro kpd hkpd
        rcases mem_dictInsert hkpd with hm | hm
        · exact hacc kpd hm
        · subst hm
          exact ⟨rfl, gt, hlk, rfl⟩

/-- Claim C3: the alignment of every scored page is exactly the external
comparer's `compute` on the stored `(gold_text, eval_text)` pair (with `""`
substituted for a `None` gold text), the comparer being built from a
`SpacySegmenter("spacy")` and a `HirschbergAligner` with `match_score=1`,
`mismatch_score=-1`, `indel_score=-1`; the script itself computes no
alignment (the result is parametric in the abstract `compute`). -/
theorem c3_alignment_delegated
    (compute : DocumentEditSimilarity → Str → Str → ℚ)
    (gold : List (Str × Option Str)) (loads : Str → Option Json)
    (lines : List Json) (totals : FileTotals)
    (h : process_jsonl_file compute evalComparer gold loads lines =
      some totals) :
    evalComparer =
      { segmenter := "spacy".toList
        aligner :=
          { match_score := 1, mismatch_score := -1, indel_score := -1 } } ∧
    ∀ kpd ∈ totals.page_data,
      kpd.2.alignment = compute evalComparer kpd.2.gold_text kpd.2.eval_text ∧
      ∃ gt, lookupGold gold kpd.1 = some gt ∧
        kpd.2.gold_text = gt.getD [] := by
  have h2 : process_lines compute evalComparer gold loads lines
      { total_alignment_score := 0, char_weighted_alignment_score := 0,
        total_chars := 0, total_pages := 0, page_data := [] } = some totals := h
  refine ⟨rfl, process_lines_page_data_inv compute evalComparer gold loads
    lines _ totals h2 ?_⟩
  intro kpd hkpd
  exact absurd hkpd (List.not_mem_nil kpd)

/-- Witness for C1: one file with one matching entry of gold length 2 and
alignment 1 scores (1*2)/2. -/
theorem c1_do_eval_char_weighted_score_witness :
    do_eval c1Compute c1Gold (fun _ => none) [[c6Entry]] =
      some ((c1Entries.map (fun es => (es.map (fun e =>
          (entryContrib c1Compute evalComparer c1Gold e).1)).sum)).sum /
        ((c1Entries.map (fun es => (es.map (fun e =>
          (entryContrib c1Compute evalComparer c1Gold e).2)).sum)).sum : ℚ)) :=
  c1_do_eval_char_weighted_score c1Compute c1Gold (fun _ => none) [[c6Entry]]
    c1Entries (List.cons_ne_nil _ _) (by decide) (by decide)

/-- Witness for C3: the single scored page's alignment is exactly the
comparer's value on its stored texts. -/
theorem c3_alignment_delegated_witness :
    c3Pd.alignment = c1Compute evalComparer c3Pd.gold_text c3Pd.eval_text :=
  (((c3_alignment_delegated c1Compute c1Gold (fun _ => none) [c6Entry]
      c3Totals rfl).2)
    ("doc.pdf-4".toList, c3Pd) (List.mem_singleton.mpr rfl)).1

/-! Claim C9 -/

theorem contains_eq_of_mem_iff {s1 s2 : List Str}
    (hs : ∀ x, x ∈ s1 ↔ x ∈ s2) (x : Str) :
    s1.contains x = s2.contains x := by
  rw [Bool.eq_iff_iff]
  simp only [List.elem_iff]
  exact hs x

theorem contains_eq_true_of_mem {l : List Str} {a : Str} (h : a ∈ l) :
    l.contains a = true := List.elem_iff.mpr h

theorem dedupKeepFirstAux_cons (seen : List Str) (x : Str) (xs : List Str) :
    dedupKeepFirstAux seen (x :: xs) =
      if seen.contains x then dedupKeepFirstAux seen xs
      else x :: dedupKeepFirstAux (x :: seen) xs := rfl

theorem dedupKeepFirstAux_congr :
    ∀ (l : List Str) (s1 s2 : List Str), (∀ x, x ∈ s1 ↔ x ∈ s2) →
      dedupKeepFirstAux s1 l = dedupKeepFirstAux s2 l := by
  intro l
  induction l with
  | nil => intro s1 s2 _; rfl
  | cons x xs ih =>
    intro s1 s2 hs
    unfold dedupKeepFirstAux
    rw [contains_eq_of_mem_iff hs x]
    by_cases hx : s2.contains x
    · rw [if_pos hx, if_pos hx]
      exact ih s1 s2 hs
    · rw [if_neg hx, if_neg hx, ih (x :: s1) (x :: s2)
        (fun y => by simp [hs y])]

theorem keys_addRule (k : Str) (r : Json) (d : List (Str × List Json)) :
    (addRule k r d).map Prod.fst =
      if k ∈ d.map Prod.fst then d.map Prod.fst
      else d.map Prod.fst ++ [k] := by
  induction d with
  | nil => simp [addRule]
  | cons p rest ih =>
    simp only [addRule]
    by_cases hpk : p.1 == k
    · have hk : p.1 = k := by
        have := hpk
        simp at this
        exact this
      rw [if_pos hpk]
      simp [hk]
    · rw [if_neg hpk]
      have hk : ¬ p.1 = k := by
        intro hc
        exact hpk (by simp [hc])
      have hk2 : ¬ k = p.1 := fun hc => hk hc.symm
      simp only [List.map_cons, ih, List.mem_cons]
      by_cases hmem : k ∈ rest.map Prod.fst
      · rw [if_pos hmem, if_pos (Or.inr hmem)]
      · rw [if_neg hmem, if_neg (by
          intro hc
          rcases hc with hc | hc
          · exact hk2 hc
          · exact hmem hc)]
        simp

theorem parse_rules_file_eq_foldl (loads : Str → Option Json)
    (lines : List Str) :
    parse_rules_file loads lines = lines.foldl (parseRulesStep loads) [] := rfl

/-- The keys of the folded rules dict are the distinct pdf names of the
lines, in order of first appearance (relative to the keys already
accumulated). -/
theorem foldl_parse_keys (loads : Str → Option Json) :
    ∀ (lines : List Str) (acc : List (Str × List Json)),
      (lines.foldl (parseRulesStep loads) acc).map Prod.fst =
        acc.map Prod.fst ++
          dedupKeepFirstAux (acc.map Prod.fst)
            (lines.filterMap (pdfOfLine loads)) := by
  intro lines
  induction lines with
  | nil => intro acc; simp [dedupKeepFirstAux]
  | cons line rest ih =>
    intro acc
    rw [List.foldl_cons, List.filterMap_cons]
    cases hp : pdfOfLine loads line with
    | none =>
      have hstep : parseRulesStep loads acc line = acc := by
        simp only [pdfOfLine] at hp
        simp only [parseRulesStep]
        by_cases hemp : (pyStrip line).isEmpty
        · simp [hemp]
        · simp only [hemp, Bool.false_eq_true, if_false] at hp ⊢
          cases hl : loads (pyStrip line) with
          | none => rfl
          | some rule =>
            rw [hl] at hp
            simp only [] at hp ⊢
            cases hg : rule.get? pdfKey with
            | none => rfl
            | some v =>
              rw [hg] at hp
              cases v with
              | str p => simp at hp
              | null => rfl
              | bool b => rfl
              | num m => rfl
              | arr es => rfl
              | obj fs => rfl
      rw [hstep, ih acc]
    | some p =>
      have hstep : parseRulesStep loads acc line =
          addRule p (match loads (pyStrip line) with
            | some rule => rule
            | none => .null) acc := by
        simp only [pdfOfLine] at hp
        simp only [parseRulesStep]
        by_cases hemp : (pyStrip line).isEmpty
        · simp [hemp] at hp
        · simp only [hemp, Bool.false_eq_true, if_false] at hp ⊢
          cases hl : loads (pyStrip line) with
          | none => rw [hl] at hp; simp at hp
          | some rule =>
            rw [hl] at hp
            simp only [] at hp ⊢
            cases hg : rule.get? pdfKey with
            | none => rw [hg] at hp; simp at hp
            | some v =>
              rw [hg] at hp
              cases v with
              | str q =>
                simp only [Option.some.injEq] at hp
                subst hp
                rfl
              | null => simp at hp
              | bool b => simp at hp
              | num m => simp at hp
              | arr es => simp at hp
              | obj fs => simp at hp
      rw [hstep, ih, keys_addRule]
      by_cases hmem : p ∈ acc.map Prod.fst
      · rw [if_pos hmem, dedupKeepFirstAux_cons,
          contains_eq_true_of_mem hmem, if_pos rfl]
      · rw [if_neg hmem]
        have hcf : (acc.map Prod.fst).contains p = false := by
          rw [Bool.eq_false_iff]
          intro hc
          exact hmem (List.elem_iff.mp hc)
        rw [dedupKeepFirstAux_cons, hcf, if_neg Bool.false_ne_true]
        rw [dedupKeepFirstAux_congr (rest.filterMap (pdfOfLine loads))
          (acc.map Prod.fst ++ [p]) (p :: acc.map Prod.fst)
          (fun y => by simp [or_comm])]
        simp

/-- Claim C9: when no explicit pdf list is supplied (`None` or the empty,
falsy list), `generate_html` processes exactly the first 10 distinct PDFs
of the rules file, in their order of first appearance; PDFs beyond the
tenth are silently omitted from the report. -/
theorem c9_generate_html_first_ten (render rc rg : Str → Except Str Str)
    (loads : Str → Option Json) (lines : List Str) (rules_file_path : Str)
    (pdfs_to_process : Option (List Str))
    (h : pdfs_to_process = none ∨ pdfs_to_process = some []) :
    generate_html render rc rg (parse_rules_file loads lines)
        rules_file_path pdfs_to_process =
      htmlHeader ++
        (((dedupKeepFirst (lines.filterMap (pdfOfLine loads))).take 10).map
          (fun pdf_name =>
            pdfBlock pdf_name
              (imgHtml render
                (pathJoin (pathJoin (dirname rules_file_path)
                  ("pdfs".toList)) pdf_name) pdf_name)
              (get_model_outputs rc rg
                (pathJoin (pathJoin (dirname rules_file_path)
                  ("pdfs".toList)) pdf_name)).1
              (get_model_outputs rc rg
                (pathJoin (pathJoin (dirname rules_file_path)
                  ("pdfs".toList)) pdf_name)).2)).flatten ++
      htmlFooter := by
  have hsel : selectPdfNames (parse_rules_file loads lines) pdfs_to_process =
      ((parse_rules_file loads lines).map Prod.fst).take 10 := by
    rcases h with h | h <;> subst h <;> rfl
  have hkeys : (parse_rules_file loads lines).map Prod.fst =
      dedupKeepFirst (lines.filterMap (pdfOfLine loads)) := by
    rw [parse_rules_file_eq_foldl, foldl_parse_keys]
    rfl
  simp only [generate_html]
  rw [hsel, hkeys]

/-- Witness for C9: with an empty rules file and no pdf list, the report is
just header and footer. -/
theorem c9_generate_html_first_ten_witness :
    generate_html (fun _ => Except.error []) (fun _ => Except.error [])
        (fun _ => Except.error []) (parse_rules_file (fun _ => none) [])
        ("rules.jsonl".toList) none =
      htmlHeader ++
        (((dedupKeepFirst (([] : List Str).filterMap
            (pdfOfLine (fun _ => none)))).take 10).map
          (fun pdf_name =>
            pdfBlock pdf_name
              (imgHtml (fun _ => Except.error [])
                (pathJoin (pathJoin (dirname ("rules.jsonl".toList))
                  ("pdfs".toList)) pdf_name) pdf_name)
              (get_model_outputs (fun _ => Except.error [])
                (fun _ => Except.error [])
                (pathJoin (pathJoin (dirname ("rules.jsonl".toList))
                  ("pdfs".toList)) pdf_name)).1
              (get_model_outputs (fun _ => Except.error [])
                (fun _ => Except.error [])
                (pathJoin (pathJoin (dirname ("rules.jsonl".toList))
                  ("pdfs".toList)) pdf_name)).2)).flatten ++
      htmlFooter :=
  c9_generate_html_first_ten (fun _ => Except.error [])
    (fun _ => Except.error []) (fun _ => Except.error []) (fun _ => none) []
    ("rules.jsonl".toList) none (Or.inl rfl)

/-! Claim C4 -/

theorem blockSeg10_decomp : blockSeg10 = blockSeg10a ++ cgPanelPre := rfl

theorem blockSeg12_decomp :
    blockSeg12 = ("</div>".toList) ++ seg12bStr ++ gmPanelPre := rfl

theorem blockSeg14_decomp :
    blockSeg14 = ("</div>".toList) ++ seg14restStr := rfl

theorem htmlFooter_decomp :
    htmlFooter = footASt ++ findDiffMarker ++ footBSt := rfl

theorem flatten_map_contains {α β : Type} (f : α → List β) (l : List α) (a : α)
    (h : a ∈ l) (pre post : List β) :
    f a <:+: pre ++ (l.map f).flatten ++ post := by
  obtain ⟨s, t, rfl⟩ := List.append_of_mem h
  exact ⟨pre ++ (s.map f).flatten, (t.map f).flatten ++ post, by
    simp [List.append_assoc]⟩

theorem img_component_in_block (pdf_name img cg gm : Str) :
    img <:+: pdfBlock pdf_name img cg gm := by
  refine ⟨blockSeg0 ++ replaceDot pdf_name ++ blockSeg1 ++ pdf_name ++
    blockSeg2 ++ replaceDot pdf_name ++ blockSeg3,
    blockSeg4 ++ replaceDot pdf_name ++ blockSeg5 ++ replaceDot pdf_name ++
      blockSeg6 ++ replaceDot pdf_name ++ blockSeg7 ++ replaceDot pdf_name ++
      blockSeg8 ++ replaceDot pdf_name ++ blockSeg9 ++ replaceDot pdf_name ++
      blockSeg10 ++ replaceDot pdf_name ++ blockSeg11 ++ cg ++ blockSeg12 ++
      replaceDot pdf_name ++ blockSeg13 ++ gm ++ blockSeg14 ++
      replaceDot pdf_name ++ blockSeg15, ?_⟩
  simp only [pdfBlock, List.append_assoc]

theorem chatgptPanel_in_block (pdf_name img cg gm : Str) :
    chatgptPanel pdf_name cg <:+: pdfBlock pdf_name img cg gm := by
  refine ⟨blockSeg0 ++ replaceDot pdf_name ++ blockSeg1 ++ pdf_name ++
    blockSeg2 ++ replaceDot pdf_name ++ blockSeg3 ++ img ++ blockSeg4 ++
    replaceDot pdf_name ++ blockSeg5 ++ replaceDot pdf_name ++ blockSeg6 ++
    replaceDot pdf_name ++ blockSeg7 ++ replaceDot pdf_name ++ blockSeg8 ++
    replaceDot pdf_name ++ blockSeg9 ++ replaceDot pdf_name ++ blockSeg10a,
    seg12bStr ++ gmPanelPre ++ replaceDot pdf_name ++ blockSeg13 ++ gm ++
      blockSeg14 ++ replaceDot pdf_name ++ blockSeg15, ?_⟩
  simp only [pdfBlock, chatgptPanel, blockSeg10_decomp, blockSeg12_decomp,
    List.append_assoc]

theorem geminiPanel_in_block (pdf_name img cg gm : Str) :
    geminiPanel pdf_name gm <:+: pdfBlock pdf_name img cg gm := by
  refine ⟨blockSeg0 ++ replaceDot pdf_name ++ blockSeg1 ++ pdf_name ++
    blockSeg2 ++ replaceDot pdf_name ++ blockSeg3 ++ img ++ blockSeg4 ++
    replaceDot pdf_name ++ blockSeg5 ++ replaceDot pdf_name ++ blockSeg6 ++
    replaceDot pdf_name ++ blockSeg7 ++ replaceDot pdf_name ++ blockSeg8 ++
    replaceDot pdf_name ++ blockSeg9 ++ replaceDot pdf_name ++ blockSeg10 ++
    replaceDot pdf_name ++ blockSeg11 ++ cg ++ ("</div>".toList) ++
    seg12bStr,
    seg14restStr ++ replaceDot pdf_name ++ blockSeg15, ?_⟩
  simp only [pdfBlock, geminiPanel, blockSeg12_decomp, blockSeg14_decomp,
    List.append_assoc]

/-- Claim C4: for every processed PDF, the report page contains the base64
PNG image tag of its rendered first page (or an error div when rendering
raised), a `'ChatGPT Output'` panel holding `run_chatgpt`'s output next to
a `'Gemini Output'` panel holding `run_gemini`'s output, and the
client-side `findDifferences` script. -/
theorem c4_generate_html_page_contents (render rc rg : Str → Except Str Str)
    (pdf_rules : List (Str × List Json)) (rules_file_path : Str)
    (pdfs_to_process : Option (List Str)) (pdf_name : Str)
    (hmem : pdf_name ∈ selectPdfNames pdf_rules pdfs_to_process) :
    (∀ b, render (pathJoin (pathJoin (dirname rules_file_path)
        ("pdfs".toList)) pdf_name) = .ok b →
      ("<img src=\"data:image/png;base64,".toList ++ b ++
        "\" alt=\"".toList ++ pdf_name ++ "\">".toList) <:+:
        generate_html render rc rg pdf_rules rules_file_path
          pdfs_to_process) ∧
    (∀ err, render (pathJoin (pathJoin (dirname rules_file_path)
        ("pdfs".toList)) pdf_name) = .error err →
      (("<div class=\"error\">Error rendering PDF: ".toList) ++ err ++
        ("</div>".toList)) <:+:
        generate_html render rc rg pdf_rules rules_file_path
          pdfs_to_process) ∧
    (∀ c g, rc (pathJoin (pathJoin (dirname rules_file_path)
        ("pdfs".toList)) pdf_name) = .ok c →
      rg (pathJoin (pathJoin (dirname rules_file_path)
        ("pdfs".toList)) pdf_name) = .ok g →
      chatgptPanel pdf_name c <:+:
        generate_html render rc rg pdf_rules rules_file_path
          pdfs_to_process ∧
      geminiPanel pdf_name g <:+:
        generate_html render rc rg pdf_rules rules_file_path
          pdfs_to_process) ∧
    findDiffMarker <:+:
      generate_html render rc rg pdf_rules rules_file_path
        pdfs_to_process := by
  set path := pathJoin (pathJoin (dirname rules_file_path) ("pdfs".toList))
    pdf_name with hpath
  have hgen : generate_html render rc rg pdf_rules rules_file_path
      pdfs_to_process =
      htmlHeader ++ ((selectPdfNames pdf_rules pdfs_to_process).map
        (fun pdf_name =>
          pdfBlock pdf_name
            (imgHtml render (pathJoin (pathJoin (dirname rules_file_path)
              ("pdfs".toList)) pdf_name) pdf_name)
            (get_model_outputs rc rg
              (pathJoin (pathJoin (dirname rules_file_path)
                ("pdfs".toList)) pdf_name)).1
            (get_model_outputs rc rg
              (pathJoin (pathJoin (dirname rules_file_path)
                ("pdfs".toList)) pdf_name)).2)).flatten ++ htmlFooter := by
    simp only [generate_html]
  have hblock : pdfBlock pdf_name (imgHtml render path pdf_name)
      (get_model_outputs rc rg path).1 (get_model_outputs rc rg path).2 <:+:
      generate_html render rc rg pdf_rules rules_file_path
        pdfs_to_process := by
    rw [hgen]
    exact flatten_map_contains
      (fun pdf_name =>
        pdfBlock pdf_name
          (imgHtml render (pathJoin (pathJoin (dirname rules_file_path)
            ("pdfs".toList)) pdf_name) pdf_name)
          (get_model_outputs rc rg
            (pathJoin (pathJoin (dirname rules_file_path)
              ("pdfs".toList)) pdf_name)).1
          (get_model_outputs rc rg
            (pathJoin (pathJoin (dirname rules_file_path)
              ("pdfs".toList)) pdf_name)).2)
      (selectPdfNames pdf_rules pdfs_to_process) pdf_name hmem
      htmlHeader htmlFooter
  refine ⟨?_, ?_, ?_, ?_⟩
  · intro b hb
    have h1 : imgHtml render path pdf_name =
        "<img src=\"data:image/png;base64,".toList ++ b ++
          "\" alt=\"".toList ++ pdf_name ++ "\">".toList := by
      simp only [imgHtml, hb]
    rw [← h1]
    exact (img_component_in_block pdf_name (imgHtml render path pdf_name)
      (get_model_outputs rc rg path).1
      (get_model_outputs rc rg path).2).trans hblock
  · intro err herr
    have h1 : imgHtml render path pdf_name =
        ("<div class=\"error\">Error rendering PDF: ".toList) ++ err ++
          ("</div>".toList) := by
      simp only [imgHtml, herr]
    rw [← h1]
    exact (img_component_in_block pdf_name (imgHtml render path pdf_name)
      (get_model_outputs rc rg path).1
      (get_model_outputs rc rg path).2).trans hblock
  · intro c g hc hg
    have houts : get_model_outputs rc rg path = (c, g) := by
      simp [get_model_outputs, hc, hg]
    constructor
    · have h2 := (chatgptPanel_in_block pdf_name
        (imgHtml render path pdf_name) (get_model_outputs rc rg path).1
        (get_model_outputs rc rg path).2).trans hblock
      rw [houts] at h2
      exact h2
    · have h2 := (geminiPanel_in_block pdf_name
        (imgHtml render path pdf_name) (get_model_outputs rc rg path).1
        (get_model_outputs rc rg path).2).trans hblock
      rw [houts] at h2
      exact h2
  · have h2 : htmlFooter <:+: generate_html render rc rg pdf_rules
        rules_file_path pdfs_to_process := by
      rw [hgen]
      exact ⟨htmlHeader ++ ((selectPdfNames pdf_rules pdfs_to_process).map
        (fun pdf_name =>
          pdfBlock pdf_name
            (imgHtml render (pathJoin (pathJoin (dirname rules_file_path)
              ("pdfs".toList)) pdf_name) pdf_name)
            (get_model_outputs rc rg
              (pathJoin (pathJoin (dirname rules_file_path)
                ("pdfs".toList)) pdf_name)).1
            (get_model_outputs rc rg
              (pathJoin (pathJoin (dirname rules_file_path)
                ("pdfs".toList)) pdf_name)).2)).flatten, [],
        by simp [List.append_assoc]⟩
    exact (show findDiffMarker <:+: htmlFooter from
      ⟨footASt, footBSt, htmlFooter_decomp.symm⟩).trans h2

/-- Witness for C4: with one rules entry and no pdf list, the report
contains the `findDifferences` script. -/
theorem c4_generate_html_page_contents_witness :
    findDiffMarker <:+:
      generate_html (fun _ => Except.error []) (fun _ => Except.error [])
        (fun _ => Except.error []) [("a.pdf".toList, [])]
        ("rules.jsonl".toList) none :=
  (c4_generate_html_page_contents (fun _ => Except.error [])
    (fun _ => Except.error []) (fun _ => Except.error [])
    [("a.pdf".toList, [])] ("rules.jsonl".toList) none ("a.pdf".toList)
    (by decide)).2.2.2

end OlmOCR

